import Mathlib

/-!
# SwipeObserver

A shallow embedding of `src/js/import/swipeObserver.js` (class `SwipeObserver`).

* Private fields of an instance become the record `Observer`; the listeners the
  instance has installed on its element are kept in the same record.
* Class-level (static) fields and the values read from `pointerDetector` and
  from the DOM are gathered in the record `Env`, handed to every method.
* `Date.now()` is an explicit argument, one per read, in the order the reads
  happen in the source.
* Coordinates, thresholds and timestamps are integers; a field that may hold
  `null` is an `Option Int`, and in a payload `none` stands for `NaN`.
* A handler returns the next state together with the custom events it
  dispatched, in dispatch order; the listeners of these custom events are
  outside the class and are taken not to call back into the observer.
-/

namespace SwipeObserver

/-! ## JavaScript primitives used by the class -/

/-- Math.abs on an integer. -/
def Math.abs (x : Int) : Int := if x < 0 then -x else x

/-- Truthiness test `!v` for a value that is `null` or an integer:
`null` and `0` are falsy. -/
def falsy : Option Int → Bool
  | none => true
  | some v => v == 0

/-- Numeric coercion of a value that is `null` or an integer, as done by the
binary minus: `null` becomes `0`. -/
def toNumber : Option Int → Int
  | none => 0
  | some v => v

/-- The call `parseInt(v, 10)` on a value that is `null` or an integer:
`NaN` (here `none`) for `null`, the integer itself otherwise. -/
def parseInt : Option Int → Option Int
  | none => none
  | some v => some v

/-- Addition of two numbers each of which may be `NaN`. -/
def numAdd : Option Int → Option Int → Option Int
  | some a, some b => some (a + b)
  | _, _ => none

/-- Replacement of the first occurrence of `pat` by `rep` in a list of
characters (no occurrence: the list is returned as it is). -/
def replaceFirstChars (pat rep : List Char) : List Char → List Char
  | [] => if pat.isEmpty then rep else []
  | c :: cs =>
    if pat.isPrefixOf (c :: cs) then rep ++ (c :: cs).drop pat.length
    else c :: replaceFirstChars pat rep cs

/-- The call `s.replace(/pat/, rep)` for a pattern without metacharacters: only
the first match is replaced. -/
def replace (s pat rep : String) : String :=
  String.mk (replaceFirstChars pat.data rep.data s.data)

/-- Splitting of a list of characters at every occurrence of `sep`. -/
def splitChars (sep : Char) : List Char → List (List Char)
  | [] => [[]]
  | c :: cs =>
    if c = sep then [] :: splitChars sep cs
    else
      match splitChars sep cs with
      | [] => [[c]]
      | w :: ws => (c :: w) :: ws

/-- The call `s.split(sep)` for a one-character separator. -/
def split (s : String) (sep : Char) : List String :=
  (splitChars sep s.data).map String.mk

/-- The method `Set.prototype.add` on an insertion-ordered set of strings. -/
def setAdd (xs : List String) (x : String) : List String :=
  if x ∈ xs then xs else xs ++ [x]

/-! ## Data model -/

/-- The three bound handlers of an instance: `#start`, `#move`, `#end`. -/
inductive Handler where
  | start
  | move
  | end_
  deriving DecidableEq, Repr

/-- A listener registration on the observed element: event name and handler. -/
abbrev Listener := String × Handler

/-- The call `el.addEventListener(name, h, false)`: a registration that is
already present is not added a second time. -/
def addEventListener (ls : List Listener) (name : String) (h : Handler) : List Listener :=
  if (name, h) ∈ ls then ls else ls ++ [(name, h)]

/-- The call `el.removeEventListener(name, h)`. -/
def removeEventListener (ls : List Listener) (name : String) (h : Handler) : List Listener :=
  ls.filter (fun l => !(l == (name, h)))

/-- What the methods read from outside the instance. -/
structure Env where
  /-- Static field `SwipeObserver.#moveEvent`. -/
  moveEvent : String
  /-- Static field `SwipeObserver.#endEvent`. -/
  endEvent : String
  /-- The getter `pointerDetector.currentPointerType`. -/
  currentPointerType : String
  /-- The name `pointerDetector.data.pointerdown`. -/
  pointerdown : String
  /-- The test `el.contains(document.elementFromPoint(x, y))`. -/
  contains : Int → Int → Bool

/-- One entry of the `touches` list of a touch event. -/
structure Touch where
  pageX : Int
  pageY : Int
  clientX : Int
  clientY : Int
  deriving DecidableEq, Repr

/-- A native press or move event. `touches` is absent on a mouse or pointer
event; on a touch press or move it holds at least one contact, the first of
which is `touches[0]`. -/
structure PointerEvent where
  touches : Option (Touch × List Touch)
  pageX : Int
  pageY : Int
  clientX : Int
  clientY : Int
  cancelable : Bool
  deriving DecidableEq, Repr

/-- Private instance fields of `SwipeObserver`, with their initialisers, and
the listeners the instance currently has on `#el`. -/
structure Observer where
  active : Bool := false
  threshold : Int := 20
  timeout : Int := 1000
  t : Option Int := none
  startPageX : Option Int := none
  startPageY : Option Int := none
  startClientX : Option Int := none
  startClientY : Option Int := none
  deltaX : Int := 0
  deltaY : Int := 0
  swipeEvents : List String := []
  swipingEvents : List String := []
  listeners : List Listener := []
  deriving DecidableEq, Repr

/-- The object built by `#getEventData`. -/
structure EventData where
  name : String
  type : String
  dir : String
  pointerType : String
  startPageX : Option Int
  startClientX : Option Int
  pageX : Option Int
  clientX : Option Int
  startPageY : Option Int
  startClientY : Option Int
  pageY : Option Int
  clientY : Option Int
  deltaX : Option Int
  deltaY : Option Int
  duration : Int
  deriving DecidableEq, Repr

/-- A dispatched `CustomEvent`. -/
structure CustomEvent where
  name : String
  bubbles : Bool
  cancelable : Bool
  detail : EventData
  deriving DecidableEq, Repr

/-- Effect of one handler call: next state, custom events dispatched on the
element (in order), and whether `preventDefault` was called on the native
event. -/
structure Outcome where
  state : Observer
  dispatched : List CustomEvent
  defaultPrevented : Bool
  deriving DecidableEq, Repr

/-! ## Static vocabularies -/

/-- Static field `#availableSwipeEvents`. -/
def availableSwipeEvents : List String :=
  ["swipe", "swipe-left", "swipe-right", "swipe-up", "swipe-down"]

/-- Static field `#availableSwipingEvents`. -/
def availableSwipingEvents : List String :=
  ["swiping", "swiping-left", "swiping-right", "swiping-up", "swiping-down"]

/-- Static field `#availableEvents`. -/
def availableEvents : List String :=
  availableSwipeEvents ++ availableSwipingEvents

/-! ## Private methods -/

/-- The local variable `eventType` of `#getEventData` once the two tests on
the delta have run (lines 157-165). -/
def eventType (s : Observer) : String :=
  if Math.abs s.deltaX > Math.abs s.deltaY then
    if Math.abs s.deltaX > s.threshold then
      (if s.deltaX < 0 then "swipe-left" else "swipe-right")
    else ""
  else if Math.abs s.deltaY > s.threshold then
    (if s.deltaY < 0 then "swipe-up" else "swipe-down")
  else ""

/-- Method `#getEventData(isSwiping)`; `now` is the value `Date.now()` returns
when the payload is built. The result `false` is `none`. -/
def getEventData (g : Env) (s : Observer) (isSwiping : Bool) (now : Int) : Option EventData :=
  if eventType s == "" then none
  else
    let type := if isSwiping then "swiping" else "swipe"
    some {
      name := type ++ replace (eventType s) "swipe" ""
      type := type
      dir := replace (eventType s) "swipe-" ""
      pointerType := g.currentPointerType
      startPageX := parseInt s.startPageX
      startClientX := parseInt s.startClientX
      pageX := numAdd (parseInt s.startPageX) (parseInt (some s.deltaX))
      clientX := numAdd (parseInt s.startClientX) (parseInt (some s.deltaX))
      startPageY := parseInt s.startPageY
      startClientY := parseInt s.startClientY
      pageY := numAdd (parseInt s.startPageY) (parseInt (some s.deltaY))
      clientY := numAdd (parseInt s.startClientY) (parseInt (some s.deltaY))
      deltaX := parseInt (some s.deltaX)
      deltaY := parseInt (some s.deltaY)
      duration := now - toNumber s.t
    }

/-- The expression `e.touches ? e.touches[0] : e` restricted to the four
coordinates that are read from it. -/
def primary (e : PointerEvent) : Touch :=
  match e.touches with
  | some (t0, _) => t0
  | none => { pageX := e.pageX, pageY := e.pageY, clientX := e.clientX, clientY := e.clientY }

/-- Method `#startListener(e)`; `now` is the value of `Date.now()`. -/
def startListener (g : Env) (s : Observer) (e : PointerEvent) (now : Int) : Observer :=
  let p := primary e
  { s with
    t := some now
    startPageX := some p.pageX
    startPageY := some p.pageY
    startClientX := some p.clientX
    startClientY := some p.clientY
    deltaX := 0
    deltaY := 0
    listeners :=
      addEventListener
        (addEventListener (addEventListener s.listeners g.moveEvent Handler.move)
          g.endEvent Handler.end_)
        "mouseleave" Handler.end_ }

/-- The custom events built and dispatched by `ev.forEach(...)`. -/
def dispatchAll (ev : List String) (data : EventData) : List CustomEvent :=
  ev.map (fun e => { name := e, bubbles := true, cancelable := true, detail := data })

/-- Method `#endListener()`. `nowData` is the clock read inside
`#getEventData` (line 183, made only when a direction is found), `nowCheck`
the read of the test at line 138. -/
def endListener (g : Env) (s : Observer) (nowData nowCheck : Int) : Outcome :=
  let data := getEventData g s false nowData
  let dispatched :=
    match data with
    | some d =>
      if nowCheck - toNumber s.t < s.timeout && s.swipeEvents.length > 0 then
        dispatchAll (s.swipeEvents.filter (fun e => e == "swipe" || e == d.name)) d
      else []
    | none => []
  { state :=
      { s with
        startPageX := none
        startClientX := none
        startPageY := none
        startClientY := none
        t := none
        listeners :=
          removeEventListener
            (removeEventListener (removeEventListener s.listeners g.moveEvent Handler.move)
              g.endEvent Handler.end_)
            "mouseleave" Handler.end_ }
    dispatched := dispatched
    defaultPrevented := false }

/-- Method `#moveListener(e)`. `nowDeadline` is the clock read of the deadline
test (line 102); `nowData` and `nowCheck` are the later reads made while a
payload is built and inside `#endListener`. -/
def moveListener (g : Env) (s : Observer) (e : PointerEvent)
    (nowDeadline nowData nowCheck : Int) : Outcome :=
  if falsy s.startPageX || falsy s.startPageY then
    { state := s, dispatched := [], defaultPrevented := false }
  else if nowDeadline - toNumber s.t > s.timeout then
    endListener g s nowData nowCheck
  else if e.cancelable then
    let x := match e.touches with
      | some (t0, _) => t0.clientX
      | none => e.clientX
    let y := match e.touches with
      | some (t0, _) => t0.clientY
      | none => e.clientY
    if !g.contains x y then
      { endListener g s nowData nowCheck with defaultPrevented := true }
    else
      let s1 := { s with deltaX := x - toNumber s.startClientX, deltaY := y - toNumber s.startClientY }
      if s1.swipingEvents.length > 0 then
        match getEventData g s1 true nowData with
        | none => { state := s1, dispatched := [], defaultPrevented := true }
        | some data =>
          { state := s1
            dispatched :=
              dispatchAll (s1.swipingEvents.filter (fun e => e == "swiping" || e == data.name)) data
            defaultPrevented := true }
      else { state := s1, dispatched := [], defaultPrevented := true }
  else { state := s, dispatched := [], defaultPrevented := false }

/-! ## Public methods -/

/-- The assignment `(v > 0) ? v : old`, where `v` may be `undefined`. -/
def positiveOr (v : Option Int) (old : Int) : Int :=
  match v with
  | some n => if n > 0 then n else old
  | none => old

/-- Method `on(events = "swipe", threshold, timeout)` (`on` is reserved in Lean,
hence the underscore); an argument that is
`undefined` is `none`. -/
def on_ (g : Env) (s : Observer) (events : Option String) (threshold timeout : Option Int) :
    Observer :=
  let events := (split (events.getD "swipe") ' ').filter (fun e => availableEvents.contains e)
  if events.length > 0 then
    let s1 := events.foldl
      (fun acc e =>
        let acc1 :=
          if availableSwipeEvents.contains e then
            { acc with swipeEvents := setAdd acc.swipeEvents e }
          else acc
        if availableSwipingEvents.contains e then
          { acc1 with swipingEvents := setAdd acc1.swipingEvents e }
        else acc1)
      s
    let s2 := { s1 with
      threshold := positiveOr threshold s1.threshold
      timeout := positiveOr timeout s1.timeout }
    if !s2.active then
      { s2 with active := true, listeners := addEventListener s2.listeners g.pointerdown Handler.start }
    else s2
  else s

/-- The constructor `new SwipeObserver(el, events, threshold, timeout)`;
`events` is `some` exactly when the argument is a string. -/
def new (g : Env) (events : Option String) (threshold timeout : Option Int) : Observer :=
  let s : Observer := {}
  match events with
  | some ev => on_ g s (some ev) threshold timeout
  | none =>
    { s with
      threshold := positiveOr threshold s.threshold
      timeout := positiveOr timeout s.timeout }

/-- The method `Set.prototype.delete` on an insertion-ordered set of strings. -/
def setDelete (xs : List String) (x : String) : List String :=
  xs.filter (fun y => !(y == x))

/-- The local function `clean()` of `off`. -/
def clean (g : Env) (s : Observer) : Observer :=
  { s with
    active := false
    listeners :=
      removeEventListener
        (removeEventListener
          (removeEventListener (removeEventListener s.listeners g.pointerdown Handler.start)
            g.moveEvent Handler.move)
          g.endEvent Handler.end_)
        "mouseleave" Handler.end_ }

/-- Method `off(events)`; `events` is `some` exactly when the argument is a
string. -/
def off (g : Env) (s : Observer) (events : Option String) : Observer :=
  match events with
  | some ev =>
    let events := (split ev ' ').filter (fun e => availableEvents.contains e)
    let s1 := events.foldl
      (fun acc e =>
        let acc1 :=
          if availableSwipeEvents.contains e then
            { acc with swipeEvents := setDelete acc.swipeEvents e }
          else acc
        if availableSwipingEvents.contains e then
          { acc1 with swipingEvents := setDelete acc1.swipingEvents e }
        else acc1)
      s
    if s1.swipeEvents.length == 0 && s1.swipingEvents.length == 0 then clean g s1 else s1
  | none => clean g { s with swipeEvents := [], swipingEvents := [] }

/-- Setter `threshold`. -/
def setThreshold (s : Observer) (t : Int) : Observer :=
  { s with threshold := if t > 0 then t else s.threshold }

/-- Setter `timeout`. -/
def setTimeout (s : Observer) (t : Int) : Observer :=
  { s with timeout := if t > 0 then t else s.timeout }

/-- Getter `events`. -/
def events (s : Observer) : List String :=
  s.swipeEvents ++ s.swipingEvents

end SwipeObserver

/-!
# PointerDetector

A shallow embedding of `src/js/import/pointerDetector.js`.

* The private fields of the single instance become the record
  `PointerDetector`, together with the names of the `window` events on which
  the constructor's local function `getPointerType` is currently installed.
* A subscribed callback is known by an identifier; calling it is recorded as a
  `Call`, and callbacks are taken not to call back into the detector.
-/

/-- What the constructor reads from `window`: whether `PointerEvent` and
`TouchEvent` are defined. -/
structure Window where
  hasPointerEvent : Bool
  hasTouchEvent : Bool
  deriving DecidableEq, Repr

/-- The object `#data`. -/
structure PointerData where
  pointerEventsInterface : String
  pointerenter : String
  pointerleave : String
  pointerup : String
  pointerdown : String
  pointermove : String
  deriving DecidableEq, Repr

/-- Private fields of the detector, and the `window` events that currently
have `getPointerType` as a listener. -/
structure PointerDetector where
  currentPointerType : String
  data : PointerData
  changeCallbacks : List Nat
  windowListeners : List String
  deriving DecidableEq, Repr

/-- One call `fn.apply(self, [arg])` of a subscribed callback; `seen` is what
the getter `currentPointerType` answers while the callback runs. -/
structure Call where
  fn : Nat
  arg : String
  seen : String
  deriving DecidableEq, Repr

namespace PointerDetector

/-- The call `w.addEventListener(name, getPointerType)`. -/
def addWindowListener (ls : List String) (name : String) : List String :=
  if name ∈ ls then ls else ls ++ [name]

/-- The call `w.removeEventListener(name, getPointerType)`. -/
def removeWindowListener (ls : List String) (name : String) : List String :=
  ls.filter (fun l => !(l == name))

/-- The constructor. `existing` is the static field
`PointerDetector.pointerDetector`: on a second instantiation the first
instance is returned. -/
def new (existing : Option PointerDetector) (w : Window) : PointerDetector :=
  match existing with
  | some d => d
  | none =>
    let pointerEventsInterface :=
      if w.hasPointerEvent then "pointer" else if w.hasTouchEvent then "touch" else "mouse"
    { data :=
        { pointerEventsInterface := pointerEventsInterface
          pointerenter :=
            if pointerEventsInterface == "touch" then "none"
            else pointerEventsInterface ++ "enter"
          pointerleave :=
            if pointerEventsInterface == "touch" then "none"
            else pointerEventsInterface ++ "leave"
          pointerup :=
            if pointerEventsInterface == "touch" then "touchend"
            else pointerEventsInterface ++ "up"
          pointerdown :=
            if pointerEventsInterface == "touch" then "touchstart"
            else pointerEventsInterface ++ "down"
          pointermove := pointerEventsInterface ++ "move" }
      currentPointerType := if pointerEventsInterface == "mouse" then "mouse" else "touch"
      changeCallbacks := []
      windowListeners :=
        if pointerEventsInterface == "pointer" then
          addWindowListener (addWindowListener [] "pointermove") "pointerdown"
        else [] }

/-- The local function `getPointerType(e)`, where `pointerType` is
`e.pointerType`: the next state and the calls made to the subscribers, in
order. -/
def getPointerType (d : PointerDetector) (pointerType : String) :
    PointerDetector × List Call :=
  if pointerType == d.currentPointerType then (d, [])
  else
    let d1 : PointerDetector :=
      { d with
        windowListeners :=
          if pointerType == "mouse" then removeWindowListener d.windowListeners "pointermove"
          else addWindowListener d.windowListeners "pointermove"
        currentPointerType := pointerType }
    (d1, d1.changeCallbacks.map
      (fun fn => { fn := fn, arg := pointerType, seen := d1.currentPointerType }))

/-- A `window` event named `name` whose `pointerType` is `pointerType`:
`getPointerType` runs when it is installed for that name. -/
def windowEvent (d : PointerDetector) (name pointerType : String) :
    PointerDetector × List Call :=
  if name ∈ d.windowListeners then getPointerType d pointerType else (d, [])

/-- Method `onChange(fn)`. -/
def onChange (d : PointerDetector) (fn : Nat) : PointerDetector :=
  if !(d.changeCallbacks.contains fn) then
    { d with changeCallbacks := d.changeCallbacks ++ [fn] }
  else d

/-- Method `offChange(fn)`. -/
def offChange (d : PointerDetector) (fn : Nat) : PointerDetector :=
  if d.changeCallbacks.contains fn then
    { d with changeCallbacks := d.changeCallbacks.filter (fun f => !(f == fn)) }
  else d

/-- What can happen to the detector after its construction: a subscription, an
unsubscription, or a `window` event with a pointer type. -/
inductive Op where
  | onChange (fn : Nat)
  | offChange (fn : Nat)
  | event (name pointerType : String)
  deriving DecidableEq, Repr

/-- The state after one operation. -/
def applyOp (d : PointerDetector) : Op → PointerDetector
  | Op.onChange fn => onChange d fn
  | Op.offChange fn => offChange d fn
  | Op.event name pointerType => (windowEvent d name pointerType).1

/-- The state after a sequence of operations. -/
def applyOps (d : PointerDetector) (ops : List Op) : PointerDetector :=
  ops.foldl applyOp d

/-- The number of times the callback `fn` is called by a run of
`getPointerType`. -/
def timesCalled (fn : Nat) (calls : List Call) : Nat :=
  (calls.map Call.fn).count fn

/-- The calls made to the subscribers by one operation. -/
def callsOfOp (d : PointerDetector) : Op → List Call
  | Op.onChange _ => []
  | Op.offChange _ => []
  | Op.event name pointerType => (windowEvent d name pointerType).2

/-- The calls made to the subscribers during a sequence of operations, in
order. -/
def callsOf (d : PointerDetector) : List Op → List Call
  | [] => []
  | op :: rest => callsOfOp d op ++ callsOf (applyOp d op) rest

end PointerDetector

namespace SwipeObserver

/-- The two static fields of `SwipeObserver` that change with the pointer
type. -/
structure Statics where
  moveEvent : String
  endEvent : String
  deriving DecidableEq, Repr

/-- The static initialisers of lines 45-46. -/
def Statics.init (d : PointerDetector) : Statics :=
  { moveEvent := if d.currentPointerType == "mouse" then "mousemove" else "touchmove"
    endEvent := if d.currentPointerType == "mouse" then "mouseup" else "touchend" }

/-- The callback subscribed in the static block (lines 50-53): the move name
is computed from the getter, the end name from the argument. -/
def Statics.onChange (c : Call) : Statics :=
  { moveEvent := if c.seen == "mouse" then "mousemove" else "touchmove"
    endEvent := if c.arg == "mouse" then "mouseup" else "touchend" }

/-- The environment of a method call, read from the detector, the static
fields and the surface. -/
def envOf (d : PointerDetector) (st : Statics) (inside : Int → Int → Bool) : Env :=
  { moveEvent := st.moveEvent
    endEvent := st.endEvent
    currentPointerType := d.currentPointerType
    pointerdown := d.data.pointerdown
    contains := inside }

end SwipeObserver

/-! ## Reference definitions used in the statements -/

namespace SwipeObserver

/-- Reference classification rule, written from the specification: the
horizontal axis wins when its magnitude is strictly larger and then must exceed
the threshold; otherwise the vertical axis is tested against the threshold; the
result is the direction, or nothing. -/
def classify (dx dy threshold : Int) : Option String :=
  if dx.natAbs > dy.natAbs then
    if (dx.natAbs : Int) > threshold then some (if dx < 0 then "left" else "right") else none
  else if (dy.natAbs : Int) > threshold then some (if dy < 0 then "up" else "down") else none

/-- The environment under the mouse interface: the native names are those of
the mouse vocabulary, and `inside` is the hit test of the surface. -/
def mouseEnv (inside : Int → Int → Bool) : Env :=
  { moveEvent := "mousemove"
    endEvent := "mouseup"
    currentPointerType := "mouse"
    pointerdown := "mousedown"
    contains := inside }

/-- A mouse event at the point (x, y) of a page that is not scrolled: page and
client coordinates coincide and there is no `touches` list. -/
def mouseAt (x y : Int) (cancelable : Bool) : PointerEvent :=
  { touches := none, pageX := x, pageY := y, clientX := x, clientY := y, cancelable := cancelable }

/-- Scenario: an observer built by the constructor under the mouse interface
(every point inside the surface) with the event list `events`, threshold 20
and timeout 1000, then pressed at (100,100) at time 0. -/
def pressed (events : String) : Observer :=
  startListener (mouseEnv (fun _ _ => true))
    (new (mouseEnv (fun _ _ => true)) (some events) (some 20) (some 1000))
    (mouseAt 100 100 true) 0

/-- Scenario: the observer of `pressed` after a cancelable move to (60,100) at
time 200. -/
def dragged (events : String) : Outcome :=
  moveListener (mouseEnv (fun _ _ => true)) (pressed events) (mouseAt 60 100 true) 200 200 200

/-- Scenario: as `pressed`, with the press on the left edge of the page, at
(0,50). -/
def pressedAtEdge (events : String) : Observer :=
  startListener (mouseEnv (fun _ _ => true))
    (new (mouseEnv (fun _ _ => true)) (some events) (some 20) (some 1000))
    (mouseAt 0 50 true) 0

/-- The callback of `events.forEach` in `on` (lines 220-223). -/
def register (acc : Observer) (e : String) : Observer :=
  let acc1 :=
    if availableSwipeEvents.contains e then
      { acc with swipeEvents := setAdd acc.swipeEvents e }
    else acc
  if availableSwipingEvents.contains e then
    { acc1 with swipingEvents := setAdd acc1.swipingEvents e }
  else acc1

/-- The callback of `events.forEach` in `off` (lines 249-252). -/
def unregister (acc : Observer) (e : String) : Observer :=
  let acc1 :=
    if availableSwipeEvents.contains e then
      { acc with swipeEvents := setDelete acc.swipeEvents e }
    else acc
  if availableSwipingEvents.contains e then
    { acc1 with swipingEvents := setDelete acc1.swipingEvents e }
  else acc1

/-- The names of an event list that `on` and `off` accept (lines 218, 248). -/
def recognized (list : String) : List String :=
  (split list ' ').filter (fun e => availableEvents.contains e)

/-- States reachable through the public interface alone: the constructor, then
any sequence of `on`, `off` and the two setters, with arbitrary arguments and
under any environment. -/
inductive Configured : Observer → Prop where
  | new (g : Env) (events : Option String) (threshold timeout : Option Int) :
      Configured (new g events threshold timeout)
  | on_ (g : Env) (s : Observer) (events : Option String) (threshold timeout : Option Int) :
      Configured s → Configured (on_ g s events threshold timeout)
  | off (g : Env) (s : Observer) (events : Option String) :
      Configured s → Configured (off g s events)
  | setThreshold (s : Observer) (t : Int) : Configured s → Configured (setThreshold s t)
  | setTimeout (s : Observer) (t : Int) : Configured s → Configured (setTimeout s t)

/-- The static fields after the subscribers have been called: the callback of
the static block is the subscriber with identifier 0. -/
def staticsAfter (st : Statics) (calls : List Call) : Statics :=
  calls.foldl (fun acc c => if c.fn = 0 then Statics.onChange c else acc) st

/-- Scenario: a host with pointer events; the detector as constructed, with
the callback of the static block subscribed. -/
def pointerHost : PointerDetector :=
  PointerDetector.onChange
    (PointerDetector.new none { hasPointerEvent := true, hasTouchEvent := true }) 0

/-- Scenario: the environment on the host of `pointerHost` before any pointer
event. -/
def envAtLoad : Env :=
  envOf pointerHost (Statics.init pointerHost) (fun _ _ => true)

/-- Scenario: the environment on the host of `pointerHost` once a `pointerdown`
made with a mouse has reached the listener of the detector on `window`. -/
def envAfterMouseDown : Env :=
  envOf (PointerDetector.windowEvent pointerHost "pointerdown" "mouse").1
    (staticsAfter (Statics.init pointerHost)
      (PointerDetector.windowEvent pointerHost "pointerdown" "mouse").2)
    (fun _ _ => true)

/-- Scenario: an observer constructed on the host of `pointerHost` with the
event list `events`, then pressed with a mouse at (100,100) at time 0; the
press listener of the observer runs before the listener of the detector on
`window`, hence under the environment `envAtLoad`. -/
def pressedAtLoad (events : String) : Observer :=
  startListener envAtLoad (new envAtLoad (some events) none none) (mouseAt 100 100 true) 0

/-- Scenario: an observer constructed under the mouse interface with the
event list `events`, pressed at (100,100) at time 0, moved to (140,100) at time
200 and released at time 300: the events dispatched by the release. -/
def rightSwipe (events : String) : List CustomEvent :=
  (endListener (mouseEnv (fun _ _ => true))
    (moveListener (mouseEnv (fun _ _ => true))
      (startListener (mouseEnv (fun _ _ => true))
        (new (mouseEnv (fun _ _ => true)) (some events) none none)
        (mouseAt 100 100 true) 0)
      (mouseAt 140 100 true) 200 200 200).state
    300 300).dispatched

/-- A move sample as `#moveListener` receives it: the environment at that
time, the native event and the three clock reads. -/
structure Sample where
  env : Env
  e : PointerEvent
  nowDeadline : Int
  nowData : Int
  nowCheck : Int

/-- The four tests a move sample has to pass for `#moveListener` to take the
delta from it: start page coordinates truthy (line 100), deadline not passed
(line 102), event cancelable (line 106), contact point inside the surface
(line 111). -/
def qualifying (s : Observer) (m : Sample) : Bool :=
  !(falsy s.startPageX || falsy s.startPageY)
    && decide (m.nowDeadline - toNumber s.t ≤ s.timeout)
    && m.e.cancelable
    && m.env.contains (primary m.e).clientX (primary m.e).clientY

/-- The handler `#moveListener` run on a sequence of samples: final state and
all the events dispatched, in order. -/
def moveAll (s : Observer) : List Sample → Observer × List CustomEvent
  | [] => (s, [])
  | m :: rest =>
    ((moveAll (moveListener m.env s m.e m.nowDeadline m.nowData m.nowCheck).state rest).1,
      (moveListener m.env s m.e m.nowDeadline m.nowData m.nowCheck).dispatched
        ++ (moveAll (moveListener m.env s m.e m.nowDeadline m.nowData m.nowCheck).state rest).2)

/-- No sample of the sequence is a qualifying one in the state in which it
arrives. -/
def noneQualifying (s : Observer) : List Sample → Prop
  | [] => True
  | m :: rest =>
    qualifying s m = false
      ∧ noneQualifying (moveListener m.env s m.e m.nowDeadline m.nowData m.nowCheck).state rest

/-- States reachable under one environment `g`, that is, while the pointer
type and the static names do not change: the constructor, then any
interleaving of `on`, `off`, the setters, presses, move samples and
releases or leaves, with arbitrary arguments and clock reads. -/
inductive Reachable (g : Env) : Observer → Prop where
  | new (events : Option String) (threshold timeout : Option Int) :
      Reachable g (new g events threshold timeout)
  | on_ (s : Observer) (events : Option String) (threshold timeout : Option Int) :
      Reachable g s → Reachable g (on_ g s events threshold timeout)
  | off (s : Observer) (events : Option String) :
      Reachable g s → Reachable g (off g s events)
  | setThreshold (s : Observer) (t : Int) : Reachable g s → Reachable g (setThreshold s t)
  | setTimeout (s : Observer) (t : Int) : Reachable g s → Reachable g (setTimeout s t)
  | press (s : Observer) (e : PointerEvent) (now : Int) :
      Reachable g s → Reachable g (startListener g s e now)
  | move (s : Observer) (e : PointerEvent) (nowDeadline nowData nowCheck : Int) :
      Reachable g s → Reachable g (moveListener g s e nowDeadline nowData nowCheck).state
  | release (s : Observer) (nowData nowCheck : Int) :
      Reachable g s → Reachable g (endListener g s nowData nowCheck).state

/-- The installed listeners match the state, under the environment `g`: the
press listener is installed exactly when the observer is active; nothing is
installed but the press listener and the move, release and leave listeners
under the current native names; and these three are installed only while a
press timestamp is stored. -/
def ListenersMatch (g : Env) (s : Observer) : Prop :=
  ((g.pointerdown, Handler.start) ∈ s.listeners ↔ s.active = true)
    ∧ (∀ l, l ∈ s.listeners →
        l = (g.pointerdown, Handler.start) ∨ l = (g.moveEvent, Handler.move)
          ∨ l = (g.endEvent, Handler.end_) ∨ l = ("mouseleave", Handler.end_))
    ∧ (((g.moveEvent, Handler.move) ∈ s.listeners ∨ (g.endEvent, Handler.end_) ∈ s.listeners
          ∨ ("mouseleave", Handler.end_) ∈ s.listeners) →
        s.t ≠ none)

/-! ## Theorems -/

theorem Math.abs_eq_natAbs (x : Int) : Math.abs x = (x.natAbs : Int) := by
  unfold Math.abs
  split <;> omega

/-- The variable `eventType` is empty when the reference rule finds no
direction, and "swipe-" followed by the direction otherwise. -/
theorem eventType_eq_classify (s : Observer) :
    eventType s =
      match classify s.deltaX s.deltaY s.threshold with
      | none => ""
      | some d => "swipe-" ++ d := by
  unfold eventType classify
  simp only [Math.abs_eq_natAbs]
  have h : ((s.deltaX.natAbs : Int) > (s.deltaY.natAbs : Int)) ↔ s.deltaX.natAbs > s.deltaY.natAbs := by
    omega
  by_cases h1 : s.deltaX.natAbs > s.deltaY.natAbs
  · have h1i := h.mpr h1
    simp only [h1, h1i, if_true]
    by_cases h2 : (s.deltaX.natAbs : Int) > s.threshold
    · simp only [h2, if_true]
      by_cases h3 : s.deltaX < 0
      · simp only [h3, if_true]; decide
      · simp only [h3, if_false]; decide
    · simp only [h2, if_false]
  · have h1i : ¬ ((s.deltaX.natAbs : Int) > (s.deltaY.natAbs : Int)) := fun hh => h1 (h.mp hh)
    simp only [h1, h1i, if_false]
    by_cases h2 : (s.deltaY.natAbs : Int) > s.threshold
    · simp only [h2, if_true]
      by_cases h3 : s.deltaY < 0
      · simp only [h3, if_true]; decide
      · simp only [h3, if_false]; decide
    · simp only [h2, if_false]

/-- The reference rule only ever yields one of the four direction names. -/
theorem classify_mem {dx dy th : Int} {d : String} (h : classify dx dy th = some d) :
    d = "left" ∨ d = "right" ∨ d = "up" ∨ d = "down" := by
  unfold classify at h
  split_ifs at h <;> simp at h <;> subst h <;> simp


theorem getEventData_eq_none_iff (g : Env) (s : Observer) (b : Bool) (now : Int) :
    getEventData g s b now = none ↔ classify s.deltaX s.deltaY s.threshold = none := by
  unfold getEventData
  rw [eventType_eq_classify]
  cases h : classify s.deltaX s.deltaY s.threshold with
  | none => simp
  | some d =>
    rcases classify_mem h with rfl | rfl | rfl | rfl <;> simp <;> decide

theorem getEventData_some (g : Env) (s : Observer) (b : Bool) (now : Int) (data : EventData)
    (h : getEventData g s b now = some data) :
    ∃ d, classify s.deltaX s.deltaY s.threshold = some d ∧ data.dir = d ∧
      data.type = (if b then "swiping" else "swipe") ∧
      data.name = (if b then "swiping-" else "swipe-") ++ d ∧
      data.deltaX = some s.deltaX ∧ data.deltaY = some s.deltaY ∧
      data.duration = now - toNumber s.t := by
  unfold getEventData at h
  rw [eventType_eq_classify] at h
  cases hc : classify s.deltaX s.deltaY s.threshold with
  | none => simp [hc] at h
  | some d =>
    refine ⟨d, rfl, ?_⟩
    rw [hc] at h
    rcases classify_mem hc with rfl | rfl | rfl | rfl <;> cases b <;>
      simp at h <;> obtain ⟨_, rfl⟩ := h <;>
      refine ⟨?_, ?_, ?_, rfl, rfl, rfl⟩ <;> dsimp only <;> decide

/-- The direction in the result of `#getEventData` is the answer of the
reference rule. -/
theorem getEventData_map_dir (g : Env) (s : Observer) (isSwiping : Bool) (now : Int) :
    (getEventData g s isSwiping now).map EventData.dir
      = classify s.deltaX s.deltaY s.threshold := by
  cases h : getEventData g s isSwiping now with
  | none =>
    rw [(getEventData_eq_none_iff g s isSwiping now).mp h]
    rfl
  | some data =>
    obtain ⟨d, hd, hdir, _⟩ := getEventData_some g s isSwiping now data h
    rw [hd, Option.map_some', hdir]

/-- C1: for every delta and every threshold (positive or not), the direction
carried by the result of `#getEventData` is the one the reference rule gives:
left or right on a strictly dominant horizontal axis beyond the threshold, up
or down on a vertical axis (ties included) beyond the threshold, and no result
at all otherwise. In particular (30,10) against 20 is right, (10,30) against 20
is down, and (10,10) against 20 has no direction. -/
theorem getEventData_dir_eq_classify :
    (∀ (g : Env) (s : Observer) (isSwiping : Bool) (now : Int),
      (getEventData g s isSwiping now).map EventData.dir
        = classify s.deltaX s.deltaY s.threshold)
    ∧ (∀ (g : Env) (isSwiping : Bool) (now : Int),
      (getEventData g { deltaX := 30, deltaY := 10, threshold := 20 } isSwiping now).map
        EventData.dir = some "right")
    ∧ (∀ (g : Env) (isSwiping : Bool) (now : Int),
      (getEventData g { deltaX := 10, deltaY := 30, threshold := 20 } isSwiping now).map
        EventData.dir = some "down")
    ∧ (∀ (g : Env) (isSwiping : Bool) (now : Int),
      getEventData g { deltaX := 10, deltaY := 10, threshold := 20 } isSwiping now = none) := by
  refine ⟨getEventData_map_dir, ?_, ?_, ?_⟩
  · intro g b now
    rw [getEventData_map_dir]
    decide
  · intro g b now
    rw [getEventData_map_dir]
    decide
  · intro g b now
    rw [getEventData_eq_none_iff]
    decide

/-- C2: when the two axes have the same magnitude, `#getEventData` never
answers left or right: the direction is up or down when the vertical magnitude
exceeds the threshold, and there is no result otherwise. -/
theorem getEventData_tie_vertical (g : Env) (s : Observer) (isSwiping : Bool) (now : Int)
    (h : Math.abs s.deltaX = Math.abs s.deltaY) :
    (getEventData g s isSwiping now).map EventData.dir
        = (if Math.abs s.deltaY > s.threshold then
            some (if s.deltaY < 0 then "up" else "down")
          else none)
      ∧ (getEventData g s isSwiping now).map EventData.dir ≠ some "left"
      ∧ (getEventData g s isSwiping now).map EventData.dir ≠ some "right" := by
  have e := getEventData_map_dir g s isSwiping now
  have hn : ¬ (s.deltaX.natAbs > s.deltaY.natAbs) := by
    rw [Math.abs_eq_natAbs, Math.abs_eq_natAbs] at h
    omega
  have e2 : classify s.deltaX s.deltaY s.threshold
      = (if Math.abs s.deltaY > s.threshold then
            some (if s.deltaY < 0 then "up" else "down")
          else none) := by
    unfold classify
    rw [if_neg hn, Math.abs_eq_natAbs]
  rw [e, e2]
  refine ⟨rfl, ?_, ?_⟩ <;> split_ifs <;> simp

/-- C2, at the delta (20,20) with threshold 15: the answer is down. -/
theorem getEventData_tie_vertical_witness :
    Math.abs (20 : Int) = Math.abs (20 : Int)
      ∧ (getEventData (mouseEnv (fun _ _ => true))
            { deltaX := 20, deltaY := 20, threshold := 15 } false 0).map EventData.dir
          = some "down" :=
  ⟨rfl, (getEventData_tie_vertical (mouseEnv (fun _ _ => true))
      { deltaX := 20, deltaY := 20, threshold := 15 } false 0 (by decide)).1.trans (by decide)⟩

/-- Names kept by the filter of `#endListener` and `#moveListener`, in terms of
membership. -/
theorem filter_ne_nil_iff (xs : List String) (a b : String) :
    xs.filter (fun e => e == a || e == b) ≠ [] ↔ (a ∈ xs ∨ b ∈ xs) := by
  rw [Ne, List.filter_eq_nil_iff]
  constructor
  · intro h
    by_contra hc
    apply h
    intro x hx hxx
    simp only [Bool.or_eq_true, beq_iff_eq] at hxx
    rcases hxx with rfl | rfl
    · exact hc (Or.inl hx)
    · exact hc (Or.inr hx)
  · rintro (h | h) hall
    · exact hall a h (by simp)
    · exact hall b h (by simp)

theorem dispatchAll_map_name (ev : List String) (data : EventData) :
    (dispatchAll ev data).map CustomEvent.name = ev := by
  unfold dispatchAll
  induction ev with
  | nil => rfl
  | cons a as ih => simpa using ih

theorem dispatchAll_eq_nil_iff (ev : List String) (data : EventData) :
    dispatchAll ev data = [] ↔ ev = [] := by
  unfold dispatchAll
  simp

theorem mem_dispatchAll {ev : List String} {data : EventData} {c : CustomEvent}
    (h : c ∈ dispatchAll ev data) : c.name ∈ ev ∧ c.detail = data := by
  unfold dispatchAll at h
  simp only [List.mem_map] at h
  obtain ⟨e, he, rfl⟩ := h
  exact ⟨he, rfl⟩

/-- What `#endListener` dispatches, case by case. -/
theorem endListener_dispatched (g : Env) (s : Observer) (nowData nowCheck : Int) :
    (endListener g s nowData nowCheck).dispatched =
      match getEventData g s false nowData with
      | some d =>
        if nowCheck - toNumber s.t < s.timeout then
          dispatchAll (s.swipeEvents.filter (fun e => e == "swipe" || e == d.name)) d
        else []
      | none => [] := by
  unfold endListener
  cases h : getEventData g s false nowData with
  | none => rfl
  | some d =>
    dsimp only
    by_cases h1 : nowCheck - toNumber s.t < s.timeout
    · by_cases h2 : s.swipeEvents.length > 0
      · simp [h1, h2]
      · have h3 : s.swipeEvents = [] := by
          cases hs : s.swipeEvents with
          | nil => rfl
          | cons a as => rw [hs] at h2; simp at h2
        simp [h1, h3, dispatchAll]
    · simp [h1]

/-- C3 (as stated) fails: with only swipe-right registered, a gesture of 40
pixels to the left released 300 ms after the press meets the three conditions
of the claim (in time, a registration exists, the delta classifies to left),
yet nothing is dispatched. -/
theorem endListener_registered_counterexample :
    (dragged "swipe-right").state.t = some 0
      ∧ (300 : Int) - 0 < (dragged "swipe-right").state.timeout
      ∧ (dragged "swipe-right").state.swipeEvents = ["swipe-right"]
      ∧ classify (dragged "swipe-right").state.deltaX (dragged "swipe-right").state.deltaY
          (dragged "swipe-right").state.threshold = some "left"
      ∧ (endListener (mouseEnv (fun _ _ => true)) (dragged "swipe-right").state 300 300).dispatched
          = [] := by
  decide

/-- What `#endListener` dispatches, in terms of the reference rule; the elapsed
time is measured from the stored timestamp (`null` counting as 0). -/
theorem endListener_rule (g : Env) (s : Observer) (nowData nowCheck : Int) :
    ((endListener g s nowData nowCheck).dispatched ≠ [] ↔
        nowCheck - toNumber s.t < s.timeout ∧
        ∃ d, classify s.deltaX s.deltaY s.threshold = some d ∧
          ("swipe" ∈ s.swipeEvents ∨ ("swipe-" ++ d) ∈ s.swipeEvents))
    ∧ (∀ d, classify s.deltaX s.deltaY s.threshold = some d →
        nowCheck - toNumber s.t < s.timeout →
        (endListener g s nowData nowCheck).dispatched.map CustomEvent.name
          = s.swipeEvents.filter (fun e => e == "swipe" || e == "swipe-" ++ d))
    ∧ (∀ c ∈ (endListener g s nowData nowCheck).dispatched,
        c.detail.type = "swipe"
          ∧ classify s.deltaX s.deltaY s.threshold = some c.detail.dir
          ∧ (c.name = "swipe" ∨ c.name = "swipe-" ++ c.detail.dir)) := by
  rw [endListener_dispatched]
  cases h : getEventData g s false nowData with
  | none =>
    have hc := (getEventData_eq_none_iff g s false nowData).mp h
    refine ⟨?_, ?_, ?_⟩
    · simp [hc]
    · intro d hd; rw [hc] at hd; cases hd
    · intro c hcm; cases hcm
  | some data =>
    obtain ⟨d, hd, hdir, htype, hname, _⟩ := getEventData_some g s false nowData data h
    simp only [Bool.false_eq_true, if_false] at htype hname
    dsimp only
    by_cases h1 : nowCheck - toNumber s.t < s.timeout
    · simp only [h1, if_true, true_and]
      refine ⟨?_, ?_, ?_⟩
      · rw [Ne, dispatchAll_eq_nil_iff, ← Ne, filter_ne_nil_iff, hname, hd]
        constructor
        · intro hm; exact ⟨d, rfl, hm⟩
        · rintro ⟨d2, hd2, hm⟩
          cases hd2
          exact hm
      · intro d2 hd2 _
        rw [hd] at hd2
        cases hd2
        rw [dispatchAll_map_name, hname]
      · intro c hcm
        obtain ⟨hn, hdet⟩ := mem_dispatchAll hcm
        rw [hdet, htype, hdir, hd]
        refine ⟨rfl, rfl, ?_⟩
        have := (List.mem_filter.mp hn).2
        simp only [Bool.or_eq_true, beq_iff_eq, hname] at this
        exact this
    · simp only [h1, if_false, false_and, iff_false]
      refine ⟨fun hh => hh rfl, ?_, ?_⟩
      · intro d2 _ h2; exact h2.elim
      · intro c hcm; cases hcm

/-- C3 (amended): in a tracking state (press time `t0`), `#endListener`
dispatches something if and only if the time elapsed at its clock test is
strictly below the timeout, the stored delta classifies to a direction d and
swipe or swipe-d is registered; the names dispatched are then exactly the
registered names among swipe and swipe-d, in registration order; and every
dispatched event is a terminal one carrying the direction of the delta under
the name swipe or swipe-d. -/
theorem endListener_dispatch_iff (g : Env) (s : Observer) (nowData nowCheck t0 : Int)
    (ht : s.t = some t0) :
    ((endListener g s nowData nowCheck).dispatched ≠ [] ↔
        nowCheck - t0 < s.timeout ∧
        ∃ d, classify s.deltaX s.deltaY s.threshold = some d ∧
          ("swipe" ∈ s.swipeEvents ∨ ("swipe-" ++ d) ∈ s.swipeEvents))
    ∧ (∀ d, classify s.deltaX s.deltaY s.threshold = some d → nowCheck - t0 < s.timeout →
        (endListener g s nowData nowCheck).dispatched.map CustomEvent.name
          = s.swipeEvents.filter (fun e => e == "swipe" || e == "swipe-" ++ d))
    ∧ (∀ c ∈ (endListener g s nowData nowCheck).dispatched,
        c.detail.type = "swipe"
          ∧ classify s.deltaX s.deltaY s.threshold = some c.detail.dir
          ∧ (c.name = "swipe" ∨ c.name = "swipe-" ++ c.detail.dir)) := by
  have hel : toNumber s.t = t0 := by rw [ht]; rfl
  have h := endListener_rule g s nowData nowCheck
  rw [hel] at h
  exact h

/-- C3 (amended), at a release 300 ms after a left drag of 40 pixels with swipe
and swipe-left registered: both names are dispatched. -/
theorem endListener_dispatch_iff_witness :
    (dragged "swipe swipe-left").state.t = some 0
      ∧ (endListener (mouseEnv (fun _ _ => true)) (dragged "swipe swipe-left").state 300
            300).dispatched.map CustomEvent.name = ["swipe", "swipe-left"] :=
  ⟨by decide,
    ((endListener_dispatch_iff (mouseEnv (fun _ _ => true)) (dragged "swipe swipe-left").state
        300 300 0 (by decide)).2.1 "left" (by decide) (by decide)).trans (by decide)⟩

/-- The contact point read by `#moveListener` is that of the primary contact. -/
theorem moveListener_point (e : PointerEvent) :
    (match e.touches with
      | some (t0, _) => t0.clientX
      | none => e.clientX) = (primary e).clientX
    ∧ (match e.touches with
      | some (t0, _) => t0.clientY
      | none => e.clientY) = (primary e).clientY := by
  unfold primary
  cases e.touches with
  | none => exact ⟨rfl, rfl⟩
  | some p => exact ⟨rfl, rfl⟩

/-- Outcome of `#moveListener` on a sample that passes the four gates: truthy
start page coordinates, deadline not passed, cancelable, inside the surface. -/
theorem moveListener_qualifying (g : Env) (s : Observer) (e : PointerEvent)
    (nowDeadline nowData nowCheck : Int)
    (hx : falsy s.startPageX = false) (hy : falsy s.startPageY = false)
    (hd : nowDeadline - toNumber s.t ≤ s.timeout) (hc : e.cancelable = true)
    (hin : g.contains (primary e).clientX (primary e).clientY = true) :
    moveListener g s e nowDeadline nowData nowCheck =
      { state :=
          { s with
            deltaX := (primary e).clientX - toNumber s.startClientX
            deltaY := (primary e).clientY - toNumber s.startClientY }
        dispatched :=
          match getEventData g
              { s with
                deltaX := (primary e).clientX - toNumber s.startClientX
                deltaY := (primary e).clientY - toNumber s.startClientY } true nowData with
          | none => []
          | some data =>
            dispatchAll (s.swipingEvents.filter (fun e => e == "swiping" || e == data.name)) data
        defaultPrevented := true } := by
  unfold moveListener
  have hd2 : ¬ (nowDeadline - toNumber s.t > s.timeout) := by omega
  obtain ⟨ex, ey⟩ := moveListener_point e
  simp only [hx, hy, Bool.or_self, Bool.false_eq_true, if_false, hd2, hc, if_true, ex, ey, hin,
    Bool.not_true]
  by_cases h2 : s.swipingEvents.length > 0
  · simp only [h2, if_true]
    split <;> rfl
  · have h3 : s.swipingEvents = [] := by
      cases hs : s.swipingEvents with
      | nil => rfl
      | cons a as => rw [hs] at h2; simp at h2
    simp only [h2, if_false]
    congr 1
    split
    · rfl
    · rw [h3]; rfl

/-- A start page coordinate that is set and non-zero is truthy. -/
theorem falsy_some_ne_zero {v : Option Int} {p : Int} (h : v = some p) (hp : p ≠ 0) :
    falsy v = false := by
  rw [h]
  simp [falsy, hp]

/-- C4 (as stated) fails: with only swiping-right registered, a cancelable,
in-time, contained move of 40 pixels to the left meets the two conditions of
the claim (a continuous registration exists, the updated delta classifies to
left), yet nothing is dispatched. -/
theorem moveListener_registered_counterexample :
    (pressed "swiping-right").swipingEvents = ["swiping-right"]
      ∧ (dragged "swiping-right").state.deltaX = -40
      ∧ (dragged "swiping-right").state.deltaY = 0
      ∧ classify (-40) 0 (pressed "swiping-right").threshold = some "left"
      ∧ (dragged "swiping-right").dispatched = [] := by
  decide

/-- C4 (amended): in a tracking state whose start page coordinates are both
non-zero, on a move sample that is cancelable, not past the deadline and
inside the surface, `#moveListener` dispatches something if and only if the
updated delta (contact point minus start client point) classifies to a
direction d and swiping or swiping-d is registered; the names dispatched are
then exactly the registered names among swiping and swiping-d, in registration
order; and every dispatched event is a continuous one, carrying the direction
of the updated delta under the name swiping or swiping-d, never a terminal
name. -/
theorem moveListener_dispatch_iff (g : Env) (s : Observer) (e : PointerEvent)
    (nowDeadline nowData nowCheck px py cx cy t0 : Int)
    (hpx : s.startPageX = some px) (hpy : s.startPageY = some py)
    (hx0 : px ≠ 0) (hy0 : py ≠ 0)
    (hcx : s.startClientX = some cx) (hcy : s.startClientY = some cy)
    (ht : s.t = some t0)
    (hc : e.cancelable = true) (hd : nowDeadline - t0 ≤ s.timeout)
    (hin : g.contains (primary e).clientX (primary e).clientY = true) :
    ((moveListener g s e nowDeadline nowData nowCheck).dispatched ≠ [] ↔
        ∃ d, classify ((primary e).clientX - cx) ((primary e).clientY - cy) s.threshold = some d ∧
          ("swiping" ∈ s.swipingEvents ∨ ("swiping-" ++ d) ∈ s.swipingEvents))
    ∧ (∀ d, classify ((primary e).clientX - cx) ((primary e).clientY - cy) s.threshold = some d →
        (moveListener g s e nowDeadline nowData nowCheck).dispatched.map CustomEvent.name
          = s.swipingEvents.filter (fun e => e == "swiping" || e == "swiping-" ++ d))
    ∧ (∀ c ∈ (moveListener g s e nowDeadline nowData nowCheck).dispatched,
        c.detail.type = "swiping"
          ∧ classify ((primary e).clientX - cx) ((primary e).clientY - cy) s.threshold
              = some c.detail.dir
          ∧ (c.name = "swiping" ∨ c.name = "swiping-" ++ c.detail.dir)
          ∧ c.name ∉ availableSwipeEvents) := by
  have hel : toNumber s.t = t0 := by rw [ht]; rfl
  have hex : toNumber s.startClientX = cx := by rw [hcx]; rfl
  have hey : toNumber s.startClientY = cy := by rw [hcy]; rfl
  rw [moveListener_qualifying g s e nowDeadline nowData nowCheck
    (falsy_some_ne_zero hpx hx0) (falsy_some_ne_zero hpy hy0) (by rw [hel]; exact hd) hc hin]
  rw [hex, hey]
  dsimp only
  cases h : getEventData g
      { s with deltaX := (primary e).clientX - cx, deltaY := (primary e).clientY - cy }
      true nowData with
  | none =>
    have hcl := (getEventData_eq_none_iff g _ true nowData).mp h
    dsimp only at hcl
    refine ⟨?_, ?_, ?_⟩
    · simp [hcl]
    · intro d hd2; rw [hcl] at hd2; cases hd2
    · intro c hcm; cases hcm
  | some data =>
    obtain ⟨d, hd1, hdir, htype, hname, _⟩ := getEventData_some g _ true nowData data h
    simp only [if_true] at htype hname
    dsimp only at hd1
    dsimp only
    refine ⟨?_, ?_, ?_⟩
    · rw [Ne, dispatchAll_eq_nil_iff, ← Ne, filter_ne_nil_iff, hname, hd1]
      constructor
      · intro hm; exact ⟨d, rfl, hm⟩
      · rintro ⟨d2, hd2, hm⟩
        cases hd2
        exact hm
    · intro d2 hd2
      rw [hd1] at hd2
      cases hd2
      rw [dispatchAll_map_name, hname]
    · intro c hcm
      obtain ⟨hn, hdet⟩ := mem_dispatchAll hcm
      rw [hdet, htype, hdir, hd1]
      have hn2 := (List.mem_filter.mp hn).2
      simp only [Bool.or_eq_true, beq_iff_eq, hname] at hn2
      refine ⟨rfl, rfl, hn2, ?_⟩
      rcases classify_mem hd1 with rfl | rfl | rfl | rfl <;>
        rcases hn2 with h2 | h2 <;> rw [h2] <;> decide

/-- C4 (amended), at the move from (100,100) to (60,100) with swiping and
swiping-left registered: both names are dispatched. -/
theorem moveListener_dispatch_iff_witness :
    ((pressed "swiping swiping-left").startPageX = some 100
        ∧ (pressed "swiping swiping-left").startPageY = some 100
        ∧ (100 : Int) ≠ 0
        ∧ (pressed "swiping swiping-left").startClientX = some 100
        ∧ (pressed "swiping swiping-left").startClientY = some 100
        ∧ (pressed "swiping swiping-left").t = some 0
        ∧ (mouseAt 60 100 true).cancelable = true
        ∧ (200 : Int) - 0 ≤ (pressed "swiping swiping-left").timeout)
      ∧ (moveListener (mouseEnv (fun _ _ => true)) (pressed "swiping swiping-left")
            (mouseAt 60 100 true) 200 200 200).dispatched.map CustomEvent.name
          = ["swiping", "swiping-left"] :=
  ⟨by decide,
    ((moveListener_dispatch_iff (mouseEnv (fun _ _ => true)) (pressed "swiping swiping-left")
        (mouseAt 60 100 true) 200 200 200 100 100 100 100 0
        (by decide) (by decide) (by decide) (by decide) (by decide) (by decide) (by decide)
        (by decide) (by decide) (by decide)).2.1 "left" (by decide)).trans (by decide)⟩

/-! ### The guard on the start page coordinates -/

/-- When a start page coordinate is `null` or zero, `#moveListener` returns at
its first line: state untouched, nothing dispatched. -/
theorem moveListener_falsy_start (g : Env) (s : Observer) (e : PointerEvent)
    (nowDeadline nowData nowCheck : Int)
    (h : falsy s.startPageX = true ∨ falsy s.startPageY = true) :
    moveListener g s e nowDeadline nowData nowCheck
      = { state := s, dispatched := [], defaultPrevented := false } := by
  unfold moveListener
  rcases h with h | h <;> simp [h]

/-- With non-zero start page coordinates, a cancelable, in-time, contained
sample sets the stored delta to the contact point minus the start client
point. -/
theorem moveListener_delta (g : Env) (s : Observer) (e : PointerEvent)
    (nowDeadline nowData nowCheck px py cx cy t0 : Int)
    (hpx : s.startPageX = some px) (hpy : s.startPageY = some py)
    (hx0 : px ≠ 0) (hy0 : py ≠ 0)
    (hcx : s.startClientX = some cx) (hcy : s.startClientY = some cy)
    (ht : s.t = some t0)
    (hc : e.cancelable = true) (hd : nowDeadline - t0 ≤ s.timeout)
    (hin : g.contains (primary e).clientX (primary e).clientY = true) :
    (moveListener g s e nowDeadline nowData nowCheck).state.deltaX = (primary e).clientX - cx
      ∧ (moveListener g s e nowDeadline nowData nowCheck).state.deltaY
          = (primary e).clientY - cy := by
  have hel : toNumber s.t = t0 := by rw [ht]; rfl
  rw [moveListener_qualifying g s e nowDeadline nowData nowCheck
    (falsy_some_ne_zero hpx hx0) (falsy_some_ne_zero hpy hy0) (by rw [hel]; exact hd) hc hin,
    hcx, hcy]
  exact ⟨rfl, rfl⟩

/-- C5: the code at a press on the left edge of the page, page and client
coordinates (0,50), followed 100 ms later by a cancelable, contained move to
(40,50): the guard of line 100 reads the start page abscissa 0 as missing and
returns, so the stored delta stays (0,0) where the claim requires (40,0). -/
theorem moveListener_edge_press_delta :
    (pressedAtEdge "swiping").startClientX = some 0
      ∧ (pressedAtEdge "swiping").startClientY = some 50
      ∧ (pressedAtEdge "swiping").t = some 0
      ∧ (100 : Int) - 0 ≤ (pressedAtEdge "swiping").timeout
      ∧ (mouseAt 40 50 true).cancelable = true
      ∧ (moveListener (mouseEnv (fun _ _ => true)) (pressedAtEdge "swiping")
            (mouseAt 40 50 true) 100 100 100).state.deltaX = 0
      ∧ (moveListener (mouseEnv (fun _ _ => true)) (pressedAtEdge "swiping")
            (mouseAt 40 50 true) 100 100 100).state.deltaX ≠ 40 - 0 := by
  decide

/-! ### The deadline -/

/-- Past the deadline the stored delta is never updated from the sample. -/
theorem moveListener_late_delta (g : Env) (s : Observer) (e : PointerEvent)
    (nowDeadline nowData nowCheck : Int)
    (hd : nowDeadline - toNumber s.t > s.timeout) :
    (moveListener g s e nowDeadline nowData nowCheck).state.deltaX = s.deltaX
      ∧ (moveListener g s e nowDeadline nowData nowCheck).state.deltaY = s.deltaY := by
  unfold moveListener
  split_ifs
  · exact ⟨rfl, rfl⟩
  · exact ⟨rfl, rfl⟩

/-- C6: the code at a press on the left edge of the page, at (0,50) and time
0, with swiping registered and timeout 1000, followed by a cancelable,
contained move to (40,50) at time 1000, an elapsed time equal to the timeout:
the sample is not processed (delta still (0,0), nothing dispatched, default
not prevented), where the claim requires the delta update. The same sample
after a press at (100,100) is processed. -/
theorem moveListener_edge_press_at_deadline :
    (pressedAtEdge "swiping").t = some 0
      ∧ (pressedAtEdge "swiping").timeout = 1000
      ∧ moveListener (mouseEnv (fun _ _ => true)) (pressedAtEdge "swiping")
            (mouseAt 40 50 true) 1000 1000 1000
          = { state := pressedAtEdge "swiping", dispatched := [], defaultPrevented := false }
      ∧ (pressedAtEdge "swiping").deltaX = 0
      ∧ (moveListener (mouseEnv (fun _ _ => true)) (pressed "swiping")
            (mouseAt 60 100 true) 1000 1000 1000).state.deltaX = -40
      ∧ (moveListener (mouseEnv (fun _ _ => true)) (pressed "swiping")
            (mouseAt 60 100 true) 1000 1000 1000).dispatched.map CustomEvent.name
          = ["swiping"] := by
  decide

theorem mem_removeEventListener (ls : List Listener) (name : String) (h : Handler)
    (l : Listener) :
    l ∈ removeEventListener ls name h ↔ l ∈ ls ∧ l ≠ (name, h) := by
  unfold removeEventListener
  simp [List.mem_filter]

/-- After `#endListener` the observer is idle: timestamp and start coordinates
are `null`, the registrations of `#move` and `#end` under the current native
names are gone, and the delta, the settings and the registered events are
those of before. -/
theorem endListener_idle (g : Env) (s : Observer) (nowData nowCheck : Int) :
    (endListener g s nowData nowCheck).state.t = none
      ∧ (endListener g s nowData nowCheck).state.startPageX = none
      ∧ (endListener g s nowData nowCheck).state.startPageY = none
      ∧ (endListener g s nowData nowCheck).state.startClientX = none
      ∧ (endListener g s nowData nowCheck).state.startClientY = none
      ∧ (g.moveEvent, Handler.move) ∉ (endListener g s nowData nowCheck).state.listeners
      ∧ (g.endEvent, Handler.end_) ∉ (endListener g s nowData nowCheck).state.listeners
      ∧ ("mouseleave", Handler.end_) ∉ (endListener g s nowData nowCheck).state.listeners
      ∧ (endListener g s nowData nowCheck).state.deltaX = s.deltaX
      ∧ (endListener g s nowData nowCheck).state.deltaY = s.deltaY := by
  refine ⟨rfl, rfl, rfl, rfl, rfl, ?_, ?_, ?_, rfl, rfl⟩
  · intro hm
    have h1 := ((mem_removeEventListener _ _ _ _).mp hm).1
    have h2 := ((mem_removeEventListener _ _ _ _).mp h1).1
    exact ((mem_removeEventListener _ _ _ _).mp h2).2 rfl
  · intro hm
    have h1 := ((mem_removeEventListener _ _ _ _).mp hm).1
    exact ((mem_removeEventListener _ _ _ _).mp h1).2 rfl
  · intro hm
    exact ((mem_removeEventListener _ _ _ _).mp hm).2 rfl

/-- Past the deadline, with truthy start page coordinates, `#moveListener` is
`#endListener`. -/
theorem moveListener_late_eq (g : Env) (s : Observer) (e : PointerEvent)
    (nowDeadline nowData nowCheck : Int)
    (hx : falsy s.startPageX = false) (hy : falsy s.startPageY = false)
    (hd : nowDeadline - toNumber s.t > s.timeout) :
    moveListener g s e nowDeadline nowData nowCheck = endListener g s nowData nowCheck := by
  unfold moveListener
  simp [hx, hy, hd]

/-- With non-zero start page coordinates, a move sample that arrives past the
deadline (clock non-decreasing from the deadline test to the test inside
`#endListener`) dispatches nothing and leaves the observer idle. -/
theorem moveListener_late (g : Env) (s : Observer) (e : PointerEvent)
    (nowDeadline nowData nowCheck px py t0 : Int)
    (hpx : s.startPageX = some px) (hpy : s.startPageY = some py)
    (hx0 : px ≠ 0) (hy0 : py ≠ 0) (ht : s.t = some t0)
    (hd : nowDeadline - t0 > s.timeout) (hmono : nowDeadline ≤ nowCheck) :
    (moveListener g s e nowDeadline nowData nowCheck).dispatched = []
      ∧ (moveListener g s e nowDeadline nowData nowCheck).state.t = none
      ∧ (moveListener g s e nowDeadline nowData nowCheck).state.startPageX = none
      ∧ (moveListener g s e nowDeadline nowData nowCheck).state.startPageY = none
      ∧ (moveListener g s e nowDeadline nowData nowCheck).state.startClientX = none
      ∧ (moveListener g s e nowDeadline nowData nowCheck).state.startClientY = none
      ∧ (g.moveEvent, Handler.move)
          ∉ (moveListener g s e nowDeadline nowData nowCheck).state.listeners
      ∧ (g.endEvent, Handler.end_)
          ∉ (moveListener g s e nowDeadline nowData nowCheck).state.listeners
      ∧ ("mouseleave", Handler.end_)
          ∉ (moveListener g s e nowDeadline nowData nowCheck).state.listeners := by
  have hel : toNumber s.t = t0 := by rw [ht]; rfl
  rw [moveListener_late_eq g s e nowDeadline nowData nowCheck
    (falsy_some_ne_zero hpx hx0) (falsy_some_ne_zero hpy hy0) (by rw [hel]; exact hd)]
  obtain ⟨i1, i2, i3, i4, i5, i6, i7, i8, _, _⟩ := endListener_idle g s nowData nowCheck
  refine ⟨?_, i1, i2, i3, i4, i5, i6, i7, i8⟩
  by_contra hne
  have h := ((endListener_rule g s nowData nowCheck).1.mp hne).1
  rw [hel] at h
  omega

/-- C7: the code at a press on the left edge of the page, at (0,50) and time
0, with timeout 1000, followed by a move sample at time 2000, past the
deadline: the guard of line 100 returns before the deadline test, so the
observer is not left idle as the claim requires; timestamp and start
coordinates are still set and the move, release and leave listeners are still
installed. Nothing is dispatched. -/
theorem moveListener_edge_press_late :
    (2000 : Int) - 0 > (pressedAtEdge "swipe swiping").timeout
      ∧ (moveListener (mouseEnv (fun _ _ => true)) (pressedAtEdge "swipe swiping")
            (mouseAt 40 50 true) 2000 2000 2000).dispatched = []
      ∧ (moveListener (mouseEnv (fun _ _ => true)) (pressedAtEdge "swipe swiping")
            (mouseAt 40 50 true) 2000 2000 2000).state.t = some 0
      ∧ (moveListener (mouseEnv (fun _ _ => true)) (pressedAtEdge "swipe swiping")
            (mouseAt 40 50 true) 2000 2000 2000).state.startPageX = some 0
      ∧ (moveListener (mouseEnv (fun _ _ => true)) (pressedAtEdge "swipe swiping")
            (mouseAt 40 50 true) 2000 2000 2000).state.startClientY = some 50
      ∧ (moveListener (mouseEnv (fun _ _ => true)) (pressedAtEdge "swipe swiping")
            (mouseAt 40 50 true) 2000 2000 2000).state.listeners
          = [("mousedown", Handler.start), ("mousemove", Handler.move),
              ("mouseup", Handler.end_), ("mouseleave", Handler.end_)] := by
  decide

/-! ### Samples that are not cancelable, samples outside the surface -/

/-- C8 (as stated) fails: after a press at (100,100) at time 0 with timeout
1000, a move sample that is not cancelable but arrives at time 2000 is not
ignored: the deadline test, which comes first, ends the gesture, so timestamp
and start coordinates are reset and the three listeners are removed. -/
theorem moveListener_not_cancelable_counterexample :
    (mouseAt 60 100 false).cancelable = false
      ∧ (pressed "swipe").t = some 0
      ∧ (pressed "swipe").startPageX = some 100
      ∧ (pressed "swipe").listeners
          = [("mousedown", Handler.start), ("mousemove", Handler.move),
              ("mouseup", Handler.end_), ("mouseleave", Handler.end_)]
      ∧ (moveListener (mouseEnv (fun _ _ => true)) (pressed "swipe")
            (mouseAt 60 100 false) 2000 2000 2000).state ≠ pressed "swipe"
      ∧ (moveListener (mouseEnv (fun _ _ => true)) (pressed "swipe")
            (mouseAt 60 100 false) 2000 2000 2000).state.t = none
      ∧ (moveListener (mouseEnv (fun _ _ => true)) (pressed "swipe")
            (mouseAt 60 100 false) 2000 2000 2000).state.startPageX = none
      ∧ (moveListener (mouseEnv (fun _ _ => true)) (pressed "swipe")
            (mouseAt 60 100 false) 2000 2000 2000).state.listeners
          = [("mousedown", Handler.start)] := by
  decide

/-- C8 (amended): in a tracking state (press time `t0`), a move sample that is
not cancelable and does not arrive past the deadline is ignored entirely:
`#moveListener` leaves every field of the observer unchanged, dispatches
nothing and does not prevent the default action. -/
theorem moveListener_not_cancelable (g : Env) (s : Observer) (e : PointerEvent)
    (nowDeadline nowData nowCheck t0 : Int)
    (ht : s.t = some t0) (hc : e.cancelable = false) (hd : nowDeadline - t0 ≤ s.timeout) :
    moveListener g s e nowDeadline nowData nowCheck
      = { state := s, dispatched := [], defaultPrevented := false } := by
  have hel : toNumber s.t = t0 := by rw [ht]; rfl
  have hd2 : ¬ (nowDeadline - toNumber s.t > s.timeout) := by rw [hel]; omega
  unfold moveListener
  simp only [hd2, if_false, hc, Bool.false_eq_true]
  split_ifs <;> rfl

/-- C8 (amended), at a non-cancelable move to (60,100) 200 ms after a press at
(100,100): the observer is left as it was. -/
theorem moveListener_not_cancelable_witness :
    ((pressed "swipe swiping").t = some 0
        ∧ (mouseAt 60 100 false).cancelable = false
        ∧ (200 : Int) - 0 ≤ (pressed "swipe swiping").timeout)
      ∧ moveListener (mouseEnv (fun _ _ => true)) (pressed "swipe swiping")
            (mouseAt 60 100 false) 200 200 200
          = { state := pressed "swipe swiping", dispatched := [], defaultPrevented := false } :=
  ⟨by decide,
    moveListener_not_cancelable (mouseEnv (fun _ _ => true)) (pressed "swipe swiping")
      (mouseAt 60 100 false) 200 200 200 0 (by decide) (by decide) (by decide)⟩

/-- With truthy start page coordinates, a cancelable, in-time sample whose
contact point is outside the surface runs `#endListener` on the state as it
is, after preventing the default action. -/
theorem moveListener_outside_eq (g : Env) (s : Observer) (e : PointerEvent)
    (nowDeadline nowData nowCheck : Int)
    (hx : falsy s.startPageX = false) (hy : falsy s.startPageY = false)
    (hd : nowDeadline - toNumber s.t ≤ s.timeout) (hc : e.cancelable = true)
    (hout : g.contains (primary e).clientX (primary e).clientY = false) :
    moveListener g s e nowDeadline nowData nowCheck
      = { endListener g s nowData nowCheck with defaultPrevented := true } := by
  unfold moveListener
  have hd2 : ¬ (nowDeadline - toNumber s.t > s.timeout) := by omega
  obtain ⟨ex, ey⟩ := moveListener_point e
  simp only [hx, hy, Bool.or_self, Bool.false_eq_true, if_false, hd2, hc, if_true, ex, ey, hout,
    Bool.not_false]

/-- C9 (as stated) fails: after a press at (100,100) with swipe registered and
threshold 20, and no move in between, a cancelable in-time sample at (200,100),
outside a surface that ends at abscissa 150, has an exit delta (100,0) that
classifies to right; yet nothing is dispatched, because the stored delta,
still (0,0), is the one classified. -/
theorem moveListener_outside_counterexample :
    (pressed "swipe").t = some 0
      ∧ (pressed "swipe").startClientX = some 100
      ∧ (pressed "swipe").startClientY = some 100
      ∧ (mouseAt 200 100 true).cancelable = true
      ∧ (100 : Int) - 0 ≤ (pressed "swipe").timeout
      ∧ (mouseEnv (fun x _ => decide (x ≤ 150))).contains 200 100 = false
      ∧ classify (200 - 100) (100 - 100) (pressed "swipe").threshold = some "right"
      ∧ "swipe" ∈ (pressed "swipe").swipeEvents
      ∧ (moveListener (mouseEnv (fun x _ => decide (x ≤ 150))) (pressed "swipe")
            (mouseAt 200 100 true) 100 100 100).dispatched = [] := by
  decide

/-- C9 (amended): in a tracking state (press time `t0`) whose start page
coordinates are both non-zero, on a cancelable, in-time move sample whose
contact point is outside the surface, `#moveListener` leaves the observer idle
(timestamp and start coordinates `null`, move, release and leave listeners
removed), does not take the delta from the exit sample, and dispatches
terminal notifications exactly when the time elapsed at the test of
`#endListener` is strictly below the timeout, the stored delta (that of the
last qualifying sample) classifies to a direction d and swipe or swipe-d is
registered; every dispatched event is a terminal one named swipe or
swipe-d. -/
theorem moveListener_outside (g : Env) (s : Observer) (e : PointerEvent)
    (nowDeadline nowData nowCheck px py t0 : Int)
    (hpx : s.startPageX = some px) (hpy : s.startPageY = some py)
    (hx0 : px ≠ 0) (hy0 : py ≠ 0) (ht : s.t = some t0)
    (hc : e.cancelable = true) (hd : nowDeadline - t0 ≤ s.timeout)
    (hout : g.contains (primary e).clientX (primary e).clientY = false) :
    ((moveListener g s e nowDeadline nowData nowCheck).state.t = none
      ∧ (moveListener g s e nowDeadline nowData nowCheck).state.startPageX = none
      ∧ (moveListener g s e nowDeadline nowData nowCheck).state.startPageY = none
      ∧ (moveListener g s e nowDeadline nowData nowCheck).state.startClientX = none
      ∧ (moveListener g s e nowDeadline nowData nowCheck).state.startClientY = none
      ∧ (g.moveEvent, Handler.move)
          ∉ (moveListener g s e nowDeadline nowData nowCheck).state.listeners
      ∧ (g.endEvent, Handler.end_)
          ∉ (moveListener g s e nowDeadline nowData nowCheck).state.listeners
      ∧ ("mouseleave", Handler.end_)
          ∉ (moveListener g s e nowDeadline nowData nowCheck).state.listeners
      ∧ (moveListener g s e nowDeadline nowData nowCheck).state.deltaX = s.deltaX
      ∧ (moveListener g s e nowDeadline nowData nowCheck).state.deltaY = s.deltaY)
    ∧ ((moveListener g s e nowDeadline nowData nowCheck).dispatched ≠ [] ↔
        nowCheck - t0 < s.timeout ∧
        ∃ d, classify s.deltaX s.deltaY s.threshold = some d ∧
          ("swipe" ∈ s.swipeEvents ∨ ("swipe-" ++ d) ∈ s.swipeEvents))
    ∧ (∀ c ∈ (moveListener g s e nowDeadline nowData nowCheck).dispatched,
        c.detail.type = "swipe"
          ∧ classify s.deltaX s.deltaY s.threshold = some c.detail.dir
          ∧ (c.name = "swipe" ∨ c.name = "swipe-" ++ c.detail.dir)) := by
  have hel : toNumber s.t = t0 := by rw [ht]; rfl
  rw [moveListener_outside_eq g s e nowDeadline nowData nowCheck
    (falsy_some_ne_zero hpx hx0) (falsy_some_ne_zero hpy hy0) (by rw [hel]; exact hd) hc hout]
  dsimp only
  have hr := endListener_rule g s nowData nowCheck
  rw [hel] at hr
  exact ⟨endListener_idle g s nowData nowCheck, hr.1, hr.2.2⟩

/-- C9 (amended), after a press at (100,100) and a move to (60,100) with swipe
registered: a sample at (200,100), outside a surface that ends at abscissa
150, ends the gesture and the stored delta (-40,0) has a terminal event
dispatched. -/
theorem moveListener_outside_witness :
    ((dragged "swipe").state.startPageX = some 100
        ∧ (dragged "swipe").state.startPageY = some 100
        ∧ (100 : Int) ≠ 0
        ∧ (dragged "swipe").state.t = some 0
        ∧ (mouseAt 200 100 true).cancelable = true
        ∧ (250 : Int) - 0 ≤ (dragged "swipe").state.timeout
        ∧ (mouseEnv (fun x _ => decide (x ≤ 150))).contains 200 100 = false)
      ∧ (moveListener (mouseEnv (fun x _ => decide (x ≤ 150))) (dragged "swipe").state
            (mouseAt 200 100 true) 250 250 250).dispatched ≠ [] :=
  ⟨by decide,
    (moveListener_outside (mouseEnv (fun x _ => decide (x ≤ 150))) (dragged "swipe").state
      (mouseAt 200 100 true) 250 250 250 100 100 0
      (by decide) (by decide) (by decide) (by decide) (by decide) (by decide) (by decide)
      (by decide)).2.1.mpr ⟨by decide, "left", by decide, Or.inl (by decide)⟩⟩

/-! ### End to end -/

/-- C10: an observer constructed with threshold 20, timeout 1000 and the events
swiping, swiping-left, swipe and swipe-left; a press at (100,100) at time 0;
a cancelable, contained move to (60,100) at time 200 sets the delta to (-40,0)
and dispatches exactly swiping and swiping-left, both with direction left;
a release at time 300 then dispatches exactly swipe and swipe-left, both with
direction left, horizontal delta -40 and duration 300, and leaves the observer
idle. -/
theorem end_to_end_left_swipe :
    (pressed "swiping swiping-left swipe swipe-left").threshold = 20
      ∧ (pressed "swiping swiping-left swipe swipe-left").timeout = 1000
      ∧ (pressed "swiping swiping-left swipe swipe-left").swipingEvents
          = ["swiping", "swiping-left"]
      ∧ (pressed "swiping swiping-left swipe swipe-left").swipeEvents = ["swipe", "swipe-left"]
      ∧ (pressed "swiping swiping-left swipe swipe-left").t = some 0
      ∧ (dragged "swiping swiping-left swipe swipe-left").state.deltaX = -40
      ∧ (dragged "swiping swiping-left swipe swipe-left").state.deltaY = 0
      ∧ (dragged "swiping swiping-left swipe swipe-left").dispatched.map
            (fun c => (c.name, c.detail.type, c.detail.dir))
          = [("swiping", "swiping", "left"), ("swiping-left", "swiping", "left")]
      ∧ (endListener (mouseEnv (fun _ _ => true))
            (dragged "swiping swiping-left swipe swipe-left").state 300 300).dispatched.map
            (fun c => (c.name, c.detail.type, c.detail.dir, c.detail.deltaX, c.detail.duration))
          = [("swipe", "swipe", "left", some (-40), 300),
              ("swipe-left", "swipe", "left", some (-40), 300)]
      ∧ (endListener (mouseEnv (fun _ _ => true))
            (dragged "swiping swiping-left swipe swipe-left").state 300 300).state.t = none := by
  decide

/-! ### The payload -/

/-- C11: when the four start coordinates and the press timestamp are set and
the stored delta classifies to a direction d, `#getEventData(isSwiping)`
returns a payload whose type is swiping or swipe according to `isSwiping`,
whose dir is d, whose name is the type, a hyphen and d (one of the ten
available names), whose deltas are the stored ones, whose current client and
page coordinates are the start ones plus the delta, whose start coordinates
and pointer type are those stored and current, and whose duration is the clock
value minus the press timestamp. -/
theorem getEventData_payload (g : Env) (s : Observer) (isSwiping : Bool)
    (now px py cx cy t0 : Int) (d : String)
    (hpx : s.startPageX = some px) (hpy : s.startPageY = some py)
    (hcx : s.startClientX = some cx) (hcy : s.startClientY = some cy)
    (ht : s.t = some t0)
    (hd : classify s.deltaX s.deltaY s.threshold = some d) :
    ∃ data, getEventData g s isSwiping now = some data
      ∧ data.type = (if isSwiping then "swiping" else "swipe")
      ∧ data.dir = d
      ∧ data.name = data.type ++ "-" ++ d
      ∧ data.name ∈ availableEvents
      ∧ data.pointerType = g.currentPointerType
      ∧ data.deltaX = some s.deltaX ∧ data.deltaY = some s.deltaY
      ∧ data.startClientX = some cx ∧ data.startClientY = some cy
      ∧ data.startPageX = some px ∧ data.startPageY = some py
      ∧ data.clientX = some (cx + s.deltaX) ∧ data.clientY = some (cy + s.deltaY)
      ∧ data.pageX = some (px + s.deltaX) ∧ data.pageY = some (py + s.deltaY)
      ∧ data.duration = now - t0 := by
  have hE : eventType s = "swipe-" ++ d := by rw [eventType_eq_classify, hd]
  unfold getEventData
  rw [hE, hpx, hpy, hcx, hcy, ht]
  rcases classify_mem hd with rfl | rfl | rfl | rfl <;> cases isSwiping <;>
    (rw [if_neg (by decide)]
     refine ⟨_, rfl, ?_, ?_, ?_, ?_, rfl, rfl, rfl, rfl, rfl, rfl, rfl, rfl, rfl, rfl, rfl, rfl⟩ <;>
      dsimp only <;> decide)

/-- C11, at the left drag of 40 pixels from (100,100), 200 ms after the press:
the payload built for a terminal event. -/
theorem getEventData_payload_witness :
    ((dragged "swipe").state.startPageX = some 100
        ∧ (dragged "swipe").state.startPageY = some 100
        ∧ (dragged "swipe").state.startClientX = some 100
        ∧ (dragged "swipe").state.startClientY = some 100
        ∧ (dragged "swipe").state.t = some 0
        ∧ classify (dragged "swipe").state.deltaX (dragged "swipe").state.deltaY
            (dragged "swipe").state.threshold = some "left")
      ∧ ∃ data, getEventData (mouseEnv (fun _ _ => true)) (dragged "swipe").state false 300
            = some data
          ∧ data.name = "swipe-left" ∧ data.clientX = some 60 ∧ data.duration = 300 := by
  refine ⟨by decide, ?_⟩
  obtain ⟨data, h, ht, _, hn, _, _, _, _, _, _, _, _, hx, _, _, _, hdur⟩ :=
    getEventData_payload (mouseEnv (fun _ _ => true)) (dragged "swipe").state false
      300 100 100 100 100 0 "left"
      (by decide) (by decide) (by decide) (by decide) (by decide) (by decide)
  refine ⟨data, h, ?_, ?_, ?_⟩
  · rw [hn, ht]; decide
  · rw [hx]; decide
  · rw [hdur]; decide

/-! ### Registration: `on` -/

theorem contains_iff_mem (xs : List String) (e : String) :
    xs.contains e = true ↔ e ∈ xs := by
  simp

theorem mem_recognized (list e : String) :
    e ∈ recognized list ↔ e ∈ split list ' ' ∧ e ∈ availableEvents := by
  unfold recognized
  simp [List.mem_filter]

theorem mem_setAdd (xs : List String) (x e : String) :
    e ∈ setAdd xs x ↔ e ∈ xs ∨ e = x := by
  unfold setAdd
  split_ifs with h
  · constructor
    · intro he; exact Or.inl he
    · rintro (he | rfl)
      · exact he
      · exact h
  · simp

theorem setAdd_of_mem {xs : List String} {x : String} (h : x ∈ xs) : setAdd xs x = xs := by
  unfold setAdd
  rw [if_pos h]

/-- The callback of `on` touches the two registration sets only. -/
theorem register_frame (acc : Observer) (e : String) :
    register acc e =
      { acc with
        swipeEvents := (register acc e).swipeEvents
        swipingEvents := (register acc e).swipingEvents } := by
  unfold register
  dsimp only
  split_ifs <;> rfl

theorem register_swipeEvents (acc : Observer) (e : String) :
    (register acc e).swipeEvents
      = if e ∈ availableSwipeEvents then setAdd acc.swipeEvents e else acc.swipeEvents := by
  unfold register
  dsimp only
  by_cases h1 : e ∈ availableSwipeEvents <;> by_cases h2 : e ∈ availableSwipingEvents <;>
    simp [h1, h2]

theorem register_swipingEvents (acc : Observer) (e : String) :
    (register acc e).swipingEvents
      = if e ∈ availableSwipingEvents then setAdd acc.swipingEvents e
        else acc.swipingEvents := by
  unfold register
  dsimp only
  by_cases h1 : e ∈ availableSwipeEvents <;> by_cases h2 : e ∈ availableSwipingEvents <;>
    simp [h1, h2]

theorem foldl_register_frame (evs : List String) (s : Observer) :
    evs.foldl register s =
      { s with
        swipeEvents := (evs.foldl register s).swipeEvents
        swipingEvents := (evs.foldl register s).swipingEvents } := by
  induction evs generalizing s with
  | nil => rfl
  | cons e es ih =>
    simp only [List.foldl_cons]
    rw [ih (register s e)]
    rw [register_frame s e]

theorem mem_foldl_register_swipeEvents (evs : List String) (s : Observer) (x : String) :
    x ∈ (evs.foldl register s).swipeEvents
      ↔ x ∈ s.swipeEvents ∨ (x ∈ evs ∧ x ∈ availableSwipeEvents) := by
  induction evs generalizing s with
  | nil => simp
  | cons e es ih =>
    simp only [List.foldl_cons]
    rw [ih (register s e), register_swipeEvents]
    by_cases h : e ∈ availableSwipeEvents
    · rw [if_pos h, mem_setAdd]
      constructor
      · rintro ((h1 | rfl) | ⟨h1, h2⟩)
        · exact Or.inl h1
        · exact Or.inr ⟨List.mem_cons_self _ _, h⟩
        · exact Or.inr ⟨List.mem_cons_of_mem _ h1, h2⟩
      · rintro (h1 | ⟨h1, h2⟩)
        · exact Or.inl (Or.inl h1)
        · rcases List.mem_cons.mp h1 with rfl | h3
          · exact Or.inl (Or.inr rfl)
          · exact Or.inr ⟨h3, h2⟩
    · rw [if_neg h]
      constructor
      · rintro (h1 | ⟨h1, h2⟩)
        · exact Or.inl h1
        · exact Or.inr ⟨List.mem_cons_of_mem _ h1, h2⟩
      · rintro (h1 | ⟨h1, h2⟩)
        · exact Or.inl h1
        · rcases List.mem_cons.mp h1 with rfl | h3
          · exact absurd h2 h
          · exact Or.inr ⟨h3, h2⟩

theorem mem_foldl_register_swipingEvents (evs : List String) (s : Observer) (x : String) :
    x ∈ (evs.foldl register s).swipingEvents
      ↔ x ∈ s.swipingEvents ∨ (x ∈ evs ∧ x ∈ availableSwipingEvents) := by
  induction evs generalizing s with
  | nil => simp
  | cons e es ih =>
    simp only [List.foldl_cons]
    rw [ih (register s e), register_swipingEvents]
    by_cases h : e ∈ availableSwipingEvents
    · rw [if_pos h, mem_setAdd]
      constructor
      · rintro ((h1 | rfl) | ⟨h1, h2⟩)
        · exact Or.inl h1
        · exact Or.inr ⟨List.mem_cons_self _ _, h⟩
        · exact Or.inr ⟨List.mem_cons_of_mem _ h1, h2⟩
      · rintro (h1 | ⟨h1, h2⟩)
        · exact Or.inl (Or.inl h1)
        · rcases List.mem_cons.mp h1 with rfl | h3
          · exact Or.inl (Or.inr rfl)
          · exact Or.inr ⟨h3, h2⟩
    · rw [if_neg h]
      constructor
      · rintro (h1 | ⟨h1, h2⟩)
        · exact Or.inl h1
        · exact Or.inr ⟨List.mem_cons_of_mem _ h1, h2⟩
      · rintro (h1 | ⟨h1, h2⟩)
        · exact Or.inl h1
        · rcases List.mem_cons.mp h1 with rfl | h3
          · exact absurd h2 h
          · exact Or.inr ⟨h3, h2⟩

/-- The method `on`, with its loop written as a fold of `register` over the
recognized names. -/
theorem on_unfold (g : Env) (s : Observer) (events : Option String)
    (threshold timeout : Option Int) :
    on_ g s events threshold timeout =
      if (recognized (events.getD "swipe")).length > 0 then
        if !((recognized (events.getD "swipe")).foldl register s).active then
          { (recognized (events.getD "swipe")).foldl register s with
            threshold :=
              positiveOr threshold ((recognized (events.getD "swipe")).foldl register s).threshold
            timeout :=
              positiveOr timeout ((recognized (events.getD "swipe")).foldl register s).timeout
            active := true
            listeners :=
              addEventListener ((recognized (events.getD "swipe")).foldl register s).listeners
                g.pointerdown Handler.start }
        else
          { (recognized (events.getD "swipe")).foldl register s with
            threshold :=
              positiveOr threshold ((recognized (events.getD "swipe")).foldl register s).threshold
            timeout :=
              positiveOr timeout ((recognized (events.getD "swipe")).foldl register s).timeout }
      else s := by
  rfl

theorem foldl_register_fields (evs : List String) (s : Observer) :
    (evs.foldl register s).threshold = s.threshold
      ∧ (evs.foldl register s).timeout = s.timeout
      ∧ (evs.foldl register s).active = s.active
      ∧ (evs.foldl register s).listeners = s.listeners := by
  rw [foldl_register_frame]
  exact ⟨rfl, rfl, rfl, rfl⟩

theorem recognized_length_pos_iff (list : String) :
    (recognized list).length > 0 ↔ ∃ e, e ∈ split list ' ' ∧ e ∈ availableEvents := by
  rw [gt_iff_lt, List.length_pos_iff_exists_mem]
  constructor
  · rintro ⟨e, he⟩; exact ⟨e, (mem_recognized list e).mp he⟩
  · rintro ⟨e, he⟩; exact ⟨e, (mem_recognized list e).mpr he⟩

/-- Threshold and timeout after `on`. -/
theorem on_threshold_timeout (g : Env) (s : Observer) (events : Option String)
    (threshold timeout : Option Int) :
    (on_ g s events threshold timeout).threshold
        = (if (recognized (events.getD "swipe")).length > 0 then positiveOr threshold s.threshold
          else s.threshold)
      ∧ (on_ g s events threshold timeout).timeout
        = (if (recognized (events.getD "swipe")).length > 0 then positiveOr timeout s.timeout
          else s.timeout) := by
  obtain ⟨h1, h2, _, _⟩ := foldl_register_fields (recognized (events.getD "swipe")) s
  rw [on_unfold]
  split_ifs <;> simp [h1, h2]

theorem positiveOr_pos (v old : Int) (h : 0 < v) : positiveOr (some v) old = v := by
  unfold positiveOr
  simp [h]

theorem positiveOr_nonpos (v old : Int) (h : v ≤ 0) : positiveOr (some v) old = old := by
  unfold positiveOr
  have : ¬ (v > 0) := by omega
  simp [this]

/-- C12 (as stated) fails: on a fresh observer, `on` called with a list that
holds no recognized name and with threshold 50 and timeout 500 leaves the
threshold at 20 and the timeout at 1000. -/
theorem on_unrecognized_counterexample :
    (0 : Int) < 50 ∧ (0 : Int) < 500
      ∧ (on_ (mouseEnv (fun _ _ => true)) (new (mouseEnv (fun _ _ => true)) none none none)
            (some "tap") (some 50) (some 500)).threshold = 20
      ∧ (on_ (mouseEnv (fun _ _ => true)) (new (mouseEnv (fun _ _ => true)) none none none)
            (some "tap") (some 50) (some 500)).timeout = 1000 := by
  decide

/-- C12 (amended): for every observer state, every positive threshold t and
timeout m, after `on(list, t, m)` the threshold is t and the timeout is m as
soon as the list holds at least one recognized name, registered already or
not; when the list holds no recognized name the call changes nothing. -/
theorem on_sets_threshold_timeout (g : Env) (s : Observer) (list : String) (t m : Int)
    (ht : 0 < t) (hm : 0 < m) :
    ((∃ e, e ∈ split list ' ' ∧ e ∈ availableEvents) →
        (on_ g s (some list) (some t) (some m)).threshold = t
          ∧ (on_ g s (some list) (some t) (some m)).timeout = m)
      ∧ ((∀ e, e ∈ split list ' ' → e ∉ availableEvents) →
        on_ g s (some list) (some t) (some m) = s) := by
  constructor
  · intro hrec
    have hl : (recognized list).length > 0 := (recognized_length_pos_iff list).mpr hrec
    obtain ⟨h1, h2⟩ := on_threshold_timeout g s (some list) (some t) (some m)
    rw [h1, h2]
    simp only [Option.getD_some, hl, if_true]
    exact ⟨positiveOr_pos t _ ht, positiveOr_pos m _ hm⟩
  · intro hno
    have hl : ¬ (recognized list).length > 0 := by
      rw [recognized_length_pos_iff]
      rintro ⟨e, he1, he2⟩
      exact hno e he1 he2
    rw [on_unfold]
    simp only [Option.getD_some, hl, if_false]

/-- C12 (amended), on an observer that already has swipe registered: calling
`on` with the same name, threshold 50 and timeout 500 sets both values. -/
theorem on_sets_threshold_timeout_witness :
    ((0 : Int) < 50 ∧ (0 : Int) < 500)
      ∧ (on_ (mouseEnv (fun _ _ => true))
            (new (mouseEnv (fun _ _ => true)) (some "swipe") none none)
            (some "swipe") (some 50) (some 500)).threshold = 50
      ∧ (on_ (mouseEnv (fun _ _ => true))
            (new (mouseEnv (fun _ _ => true)) (some "swipe") none none)
            (some "swipe") (some 50) (some 500)).timeout = 500 :=
  ⟨by decide,
    (on_sets_threshold_timeout (mouseEnv (fun _ _ => true))
      (new (mouseEnv (fun _ _ => true)) (some "swipe") none none) "swipe" 50 500
      (by decide) (by decide)).1 ⟨"swipe", by decide, by decide⟩⟩

/-! ### Unregistration: `off` -/

/-- The callback of `off` touches the two registration sets only. -/
theorem unregister_frame (acc : Observer) (e : String) :
    unregister acc e =
      { acc with
        swipeEvents := (unregister acc e).swipeEvents
        swipingEvents := (unregister acc e).swipingEvents } := by
  unfold unregister
  dsimp only
  split_ifs <;> rfl

theorem unregister_swipeEvents (acc : Observer) (e : String) :
    (unregister acc e).swipeEvents
      = if e ∈ availableSwipeEvents then setDelete acc.swipeEvents e else acc.swipeEvents := by
  unfold unregister
  dsimp only
  by_cases h1 : e ∈ availableSwipeEvents <;> by_cases h2 : e ∈ availableSwipingEvents <;>
    simp [h1, h2]

theorem unregister_swipingEvents (acc : Observer) (e : String) :
    (unregister acc e).swipingEvents
      = if e ∈ availableSwipingEvents then setDelete acc.swipingEvents e
        else acc.swipingEvents := by
  unfold unregister
  dsimp only
  by_cases h1 : e ∈ availableSwipeEvents <;> by_cases h2 : e ∈ availableSwipingEvents <;>
    simp [h1, h2]

theorem foldl_unregister_frame (evs : List String) (s : Observer) :
    evs.foldl unregister s =
      { s with
        swipeEvents := (evs.foldl unregister s).swipeEvents
        swipingEvents := (evs.foldl unregister s).swipingEvents } := by
  induction evs generalizing s with
  | nil => rfl
  | cons e es ih =>
    simp only [List.foldl_cons]
    rw [ih (unregister s e)]
    rw [unregister_frame s e]

theorem foldl_unregister_fields (evs : List String) (s : Observer) :
    (evs.foldl unregister s).threshold = s.threshold
      ∧ (evs.foldl unregister s).timeout = s.timeout
      ∧ (evs.foldl unregister s).active = s.active
      ∧ (evs.foldl unregister s).listeners = s.listeners := by
  rw [foldl_unregister_frame]
  exact ⟨rfl, rfl, rfl, rfl⟩

/-- After the loop of `off`, the terminal set is the old one without the
names of the loop that are terminal names. -/
theorem foldl_unregister_swipeEvents (evs : List String) (s : Observer) :
    (evs.foldl unregister s).swipeEvents
      = s.swipeEvents.filter (fun x => !(decide (x ∈ evs ∧ x ∈ availableSwipeEvents))) := by
  induction evs generalizing s with
  | nil => simp
  | cons e es ih =>
    simp only [List.foldl_cons]
    rw [ih (unregister s e), unregister_swipeEvents]
    by_cases h : e ∈ availableSwipeEvents
    · rw [if_pos h]
      unfold setDelete
      rw [List.filter_filter]
      apply List.filter_congr
      intro x _
      by_cases hx : x = e
      · subst hx; simp [h]
      · simp [hx]
    · rw [if_neg h]
      apply List.filter_congr
      intro x _
      by_cases hx : x = e
      · subst hx; simp [h]
      · simp [hx]

/-- After the loop of `off`, the continuous set is the old one without the
names of the loop that are continuous names. -/
theorem foldl_unregister_swipingEvents (evs : List String) (s : Observer) :
    (evs.foldl unregister s).swipingEvents
      = s.swipingEvents.filter
          (fun x => !(decide (x ∈ evs ∧ x ∈ availableSwipingEvents))) := by
  induction evs generalizing s with
  | nil => simp
  | cons e es ih =>
    simp only [List.foldl_cons]
    rw [ih (unregister s e), unregister_swipingEvents]
    by_cases h : e ∈ availableSwipingEvents
    · rw [if_pos h]
      unfold setDelete
      rw [List.filter_filter]
      apply List.filter_congr
      intro x _
      by_cases hx : x = e
      · subst hx; simp [h]
      · simp [hx]
    · rw [if_neg h]
      apply List.filter_congr
      intro x _
      by_cases hx : x = e
      · subst hx; simp [h]
      · simp [hx]

/-- The method `off` on a string, with its loop written as a fold of
`unregister` over the recognized names. -/
theorem off_unfold (g : Env) (s : Observer) (list : String) :
    off g s (some list) =
      if ((recognized list).foldl unregister s).swipeEvents.length == 0
          && ((recognized list).foldl unregister s).swipingEvents.length == 0 then
        clean g ((recognized list).foldl unregister s)
      else (recognized list).foldl unregister s := by
  rfl

theorem off_threshold_timeout (g : Env) (s : Observer) (events : Option String) :
    (off g s events).threshold = s.threshold ∧ (off g s events).timeout = s.timeout := by
  cases events with
  | none => exact ⟨rfl, rfl⟩
  | some list =>
    obtain ⟨h1, h2, _, _⟩ := foldl_unregister_fields (recognized list) s
    rw [off_unfold]
    split_ifs
    · exact ⟨h1, h2⟩
    · exact ⟨h1, h2⟩

/-! ### Threshold and timeout -/

theorem positiveOr_pos_of_pos (v : Option Int) (old : Int) (h : 0 < old) :
    0 < positiveOr v old := by
  unfold positiveOr
  cases v with
  | none => exact h
  | some n =>
    dsimp only
    split_ifs with hn
    · exact hn
    · exact h

theorem new_threshold_timeout (g : Env) (events : Option String)
    (threshold timeout : Option Int) :
    ((new g events threshold timeout).threshold = positiveOr threshold 20
        ∨ (new g events threshold timeout).threshold = 20)
      ∧ ((new g events threshold timeout).timeout = positiveOr timeout 1000
        ∨ (new g events threshold timeout).timeout = 1000) := by
  cases events with
  | none => exact ⟨Or.inl rfl, Or.inl rfl⟩
  | some ev =>
    have h := on_threshold_timeout g {} (some ev) threshold timeout
    have hn : new g (some ev) threshold timeout = on_ g {} (some ev) threshold timeout := rfl
    rw [hn, h.1, h.2]
    split_ifs
    · exact ⟨Or.inl rfl, Or.inl rfl⟩
    · exact ⟨Or.inr rfl, Or.inr rfl⟩

/-- C13: in every state reached from the constructor by `on`, `off` and the
two setters, whatever the arguments, threshold and timeout are positive; with
no value supplied the constructor leaves them at 20 and 1000; and a value that
is zero or negative, given to the constructor, to `on` or to a setter, leaves
the value that was there (the default, for the constructor). -/
theorem configured_threshold_timeout_pos :
    (∀ s, Configured s → 0 < s.threshold ∧ 0 < s.timeout)
    ∧ (∀ (g : Env) (events : Option String),
        (new g events none none).threshold = 20 ∧ (new g events none none).timeout = 1000)
    ∧ (∀ (g : Env) (events : Option String) (v : Int) (other : Option Int), v ≤ 0 →
        (new g events (some v) other).threshold = 20)
    ∧ (∀ (g : Env) (events : Option String) (v : Int) (other : Option Int), v ≤ 0 →
        (new g events other (some v)).timeout = 1000)
    ∧ (∀ (g : Env) (s : Observer) (events : Option String) (v : Int) (other : Option Int),
        v ≤ 0 → (on_ g s events (some v) other).threshold = s.threshold)
    ∧ (∀ (g : Env) (s : Observer) (events : Option String) (v : Int) (other : Option Int),
        v ≤ 0 → (on_ g s events other (some v)).timeout = s.timeout)
    ∧ (∀ (s : Observer) (v : Int), v ≤ 0 → setThreshold s v = s)
    ∧ (∀ (s : Observer) (v : Int), v ≤ 0 → setTimeout s v = s) := by
  refine ⟨?_, ?_, ?_, ?_, ?_, ?_, ?_, ?_⟩
  · intro s hs
    induction hs with
    | new g events threshold timeout =>
      obtain ⟨h1, h2⟩ := new_threshold_timeout g events threshold timeout
      constructor
      · rcases h1 with h | h <;> rw [h]
        · exact positiveOr_pos_of_pos _ _ (by decide)
        · decide
      · rcases h2 with h | h <;> rw [h]
        · exact positiveOr_pos_of_pos _ _ (by decide)
        · decide
    | on_ g s events threshold timeout _ ih =>
      obtain ⟨h1, h2⟩ := on_threshold_timeout g s events threshold timeout
      rw [h1, h2]
      constructor
      · split_ifs
        · exact positiveOr_pos_of_pos _ _ ih.1
        · exact ih.1
      · split_ifs
        · exact positiveOr_pos_of_pos _ _ ih.2
        · exact ih.2
    | off g s events _ ih =>
      obtain ⟨h1, h2⟩ := off_threshold_timeout g s events
      rw [h1, h2]
      exact ih
    | setThreshold s t _ ih =>
      unfold setThreshold
      dsimp only
      refine ⟨?_, ih.2⟩
      split_ifs with ht
      · exact ht
      · exact ih.1
    | setTimeout s t _ ih =>
      unfold setTimeout
      dsimp only
      refine ⟨ih.1, ?_⟩
      split_ifs with ht
      · exact ht
      · exact ih.2
  · intro g events
    obtain ⟨h1, h2⟩ := new_threshold_timeout g events none none
    constructor
    · rcases h1 with h | h
      · rw [h]; rfl
      · exact h
    · rcases h2 with h | h
      · rw [h]; rfl
      · exact h
  · intro g events v other hv
    rcases (new_threshold_timeout g events (some v) other).1 with h | h <;> rw [h]
    exact positiveOr_nonpos v 20 hv
  · intro g events v other hv
    rcases (new_threshold_timeout g events other (some v)).2 with h | h <;> rw [h]
    exact positiveOr_nonpos v 1000 hv
  · intro g s events v other hv
    rw [(on_threshold_timeout g s events (some v) other).1]
    split_ifs
    · exact positiveOr_nonpos v _ hv
    · rfl
  · intro g s events v other hv
    rw [(on_threshold_timeout g s events other (some v)).2]
    split_ifs
    · exact positiveOr_nonpos v _ hv
    · rfl
  · intro s v hv
    unfold setThreshold
    have : ¬ (v > 0) := by omega
    simp [this]
  · intro s v hv
    unfold setTimeout
    have : ¬ (v > 0) := by omega
    simp [this]

/-- C13, on the state reached by constructing with threshold -5, calling `on`
with timeout 0, `off` and the setter with -1: threshold and timeout are
positive. -/
theorem configured_threshold_timeout_pos_witness :
    0 < (setThreshold
          (off (mouseEnv (fun _ _ => true))
            (on_ (mouseEnv (fun _ _ => true))
              (new (mouseEnv (fun _ _ => true)) (some "swipe") (some (-5)) none)
              (some "swiping") none (some 0))
            none)
          (-1)).threshold
      ∧ 0 < (setThreshold
          (off (mouseEnv (fun _ _ => true))
            (on_ (mouseEnv (fun _ _ => true))
              (new (mouseEnv (fun _ _ => true)) (some "swipe") (some (-5)) none)
              (some "swiping") none (some 0))
            none)
          (-1)).timeout :=
  configured_threshold_timeout_pos.1 _
    (Configured.setThreshold _ _
      (Configured.off _ _ _
        (Configured.on_ _ _ _ _ _ (Configured.new _ _ _ _))))

/-! ### Registration sets after `on` -/

theorem register_of_mem (s : Observer) (e : String)
    (h1 : e ∈ availableSwipeEvents → e ∈ s.swipeEvents)
    (h2 : e ∈ availableSwipingEvents → e ∈ s.swipingEvents) :
    register s e = s := by
  rw [register_frame, register_swipeEvents, register_swipingEvents]
  have e1 : (if e ∈ availableSwipeEvents then setAdd s.swipeEvents e else s.swipeEvents)
      = s.swipeEvents := by
    split_ifs with h
    · exact setAdd_of_mem (h1 h)
    · rfl
  have e2 : (if e ∈ availableSwipingEvents then setAdd s.swipingEvents e else s.swipingEvents)
      = s.swipingEvents := by
    split_ifs with h
    · exact setAdd_of_mem (h2 h)
    · rfl
  rw [e1, e2]

theorem foldl_register_of_mem (evs : List String) (s : Observer)
    (h : ∀ e, e ∈ evs →
      (e ∈ availableSwipeEvents → e ∈ s.swipeEvents)
        ∧ (e ∈ availableSwipingEvents → e ∈ s.swipingEvents)) :
    evs.foldl register s = s := by
  induction evs with
  | nil => rfl
  | cons e es ih =>
    simp only [List.foldl_cons]
    rw [register_of_mem s e (h e (List.mem_cons_self _ _)).1 (h e (List.mem_cons_self _ _)).2]
    exact ih (fun x hx => h x (List.mem_cons_of_mem _ hx))

theorem recognized_eq_nil_of_length {list : String} (h : ¬ (recognized list).length > 0) :
    recognized list = [] := by
  cases hr : recognized list with
  | nil => rfl
  | cons a as => rw [hr] at h; simp at h

/-- The two registration sets after `on` are those after its loop. -/
theorem on_registrations (g : Env) (s : Observer) (list : String)
    (threshold timeout : Option Int) :
    (on_ g s (some list) threshold timeout).swipeEvents
        = ((recognized list).foldl register s).swipeEvents
      ∧ (on_ g s (some list) threshold timeout).swipingEvents
        = ((recognized list).foldl register s).swipingEvents := by
  rw [on_unfold]
  simp only [Option.getD_some]
  split_ifs with h1 h2
  · exact ⟨rfl, rfl⟩
  · exact ⟨rfl, rfl⟩
  · rw [recognized_eq_nil_of_length h1]
    exact ⟨rfl, rfl⟩

/-- When a name of the list is recognized, `on` leaves the observer active;
the press listener is added if the observer was not active, and the listeners
are untouched if it was. -/
theorem on_active (g : Env) (s : Observer) (list : String) (threshold timeout : Option Int)
    (h : (recognized list).length > 0) :
    (on_ g s (some list) threshold timeout).active = true
      ∧ (on_ g s (some list) threshold timeout).listeners
          = (if s.active then s.listeners
            else addEventListener s.listeners g.pointerdown Handler.start) := by
  obtain ⟨_, _, h3, h4⟩ := foldl_register_fields (recognized list) s
  rw [on_unfold]
  simp only [Option.getD_some, h, if_true, h3, h4]
  cases ha : s.active <;> simp

theorem availableSwipeEvents_subset {e : String} (h : e ∈ availableSwipeEvents) :
    e ∈ availableEvents := by
  unfold availableEvents
  exact List.mem_append_left _ h

theorem availableSwipingEvents_subset {e : String} (h : e ∈ availableSwipingEvents) :
    e ∈ availableEvents := by
  unfold availableEvents
  exact List.mem_append_right _ h

/-- C14: after `on(list)`, a name is in the terminal set exactly when it was
there or is a name of the list among the five terminal names, and in the
continuous set exactly when it was there or is a name of the list among the
five continuous names, so that unrecognized names add nothing; the observer is
active as soon as one name of the list is recognized, and the call changes
nothing when none is; and a second call with the same list, whatever the
environment and the other arguments, leaves both sets, the active flag and
the installed listeners as the first call left them. -/
theorem on_registers (g : Env) (s : Observer) (list : String)
    (threshold timeout : Option Int) :
    (∀ e, e ∈ (on_ g s (some list) threshold timeout).swipeEvents
        ↔ e ∈ s.swipeEvents ∨ (e ∈ split list ' ' ∧ e ∈ availableSwipeEvents))
    ∧ (∀ e, e ∈ (on_ g s (some list) threshold timeout).swipingEvents
        ↔ e ∈ s.swipingEvents ∨ (e ∈ split list ' ' ∧ e ∈ availableSwipingEvents))
    ∧ ((∃ e, e ∈ split list ' ' ∧ e ∈ availableEvents) →
        (on_ g s (some list) threshold timeout).active = true)
    ∧ ((∀ e, e ∈ split list ' ' → e ∉ availableEvents) →
        on_ g s (some list) threshold timeout = s)
    ∧ (∀ (g2 : Env) (threshold2 timeout2 : Option Int),
        (on_ g2 (on_ g s (some list) threshold timeout) (some list) threshold2
              timeout2).swipeEvents
            = (on_ g s (some list) threshold timeout).swipeEvents
          ∧ (on_ g2 (on_ g s (some list) threshold timeout) (some list) threshold2
              timeout2).swipingEvents
            = (on_ g s (some list) threshold timeout).swipingEvents
          ∧ (on_ g2 (on_ g s (some list) threshold timeout) (some list) threshold2
              timeout2).active
            = (on_ g s (some list) threshold timeout).active
          ∧ (on_ g2 (on_ g s (some list) threshold timeout) (some list) threshold2
              timeout2).listeners
            = (on_ g s (some list) threshold timeout).listeners) := by
  have hsw : ∀ e, e ∈ (on_ g s (some list) threshold timeout).swipeEvents
      ↔ e ∈ s.swipeEvents ∨ (e ∈ split list ' ' ∧ e ∈ availableSwipeEvents) := by
    intro e
    rw [(on_registrations g s list threshold timeout).1, mem_foldl_register_swipeEvents,
      mem_recognized]
    constructor
    · rintro (h | ⟨⟨h1, _⟩, h3⟩)
      · exact Or.inl h
      · exact Or.inr ⟨h1, h3⟩
    · rintro (h | ⟨h1, h3⟩)
      · exact Or.inl h
      · exact Or.inr ⟨⟨h1, availableSwipeEvents_subset h3⟩, h3⟩
  have hsg : ∀ e, e ∈ (on_ g s (some list) threshold timeout).swipingEvents
      ↔ e ∈ s.swipingEvents ∨ (e ∈ split list ' ' ∧ e ∈ availableSwipingEvents) := by
    intro e
    rw [(on_registrations g s list threshold timeout).2, mem_foldl_register_swipingEvents,
      mem_recognized]
    constructor
    · rintro (h | ⟨⟨h1, _⟩, h3⟩)
      · exact Or.inl h
      · exact Or.inr ⟨h1, h3⟩
    · rintro (h | ⟨h1, h3⟩)
      · exact Or.inl h
      · exact Or.inr ⟨⟨h1, availableSwipingEvents_subset h3⟩, h3⟩
  have hnone : (∀ e, e ∈ split list ' ' → e ∉ availableEvents) →
      ∀ (g1 : Env) (s1 : Observer) (th1 to1 : Option Int),
        on_ g1 s1 (some list) th1 to1 = s1 := by
    intro hno g1 s1 th1 to1
    have hl : ¬ (recognized list).length > 0 := by
      rw [recognized_length_pos_iff]
      rintro ⟨e, he1, he2⟩
      exact hno e he1 he2
    rw [on_unfold]
    simp only [Option.getD_some, hl, if_false]
  refine ⟨hsw, hsg, ?_, fun hno => hnone hno g s threshold timeout, ?_⟩
  · intro hrec
    exact (on_active g s list threshold timeout ((recognized_length_pos_iff list).mpr hrec)).1
  · intro g2 threshold2 timeout2
    by_cases hl : (recognized list).length > 0
    · have hact := (on_active g s list threshold timeout hl).1
      have hfold : (recognized list).foldl register (on_ g s (some list) threshold timeout)
          = on_ g s (some list) threshold timeout := by
        apply foldl_register_of_mem
        intro e he
        have he2 := ((mem_recognized list e).mp he).1
        exact ⟨fun h => (hsw e).mpr (Or.inr ⟨he2, h⟩), fun h => (hsg e).mpr (Or.inr ⟨he2, h⟩)⟩
      rw [on_unfold g2 (on_ g s (some list) threshold timeout)]
      simp only [Option.getD_some, hl, if_true, hfold, hact, Bool.not_true, Bool.false_eq_true,
        if_false, and_self]
    · have hno : ∀ e, e ∈ split list ' ' → e ∉ availableEvents := by
        intro e he1 he2
        exact hl ((recognized_length_pos_iff list).mpr ⟨e, he1, he2⟩)
      rw [hnone hno g s threshold timeout, hnone hno g2 s threshold2 timeout2]
      exact ⟨rfl, rfl, rfl, rfl⟩

/-- C14, on a new observer and the list made of swipe-left, an unknown name and
swiping: the observer becomes active, and a second call leaves the listeners
as they are. -/
theorem on_registers_witness :
    (∃ e, e ∈ split "swipe-left tap swiping" ' ' ∧ e ∈ availableEvents)
      ∧ (on_ (mouseEnv (fun _ _ => true)) (new (mouseEnv (fun _ _ => true)) none none none)
            (some "swipe-left tap swiping") none none).active = true
      ∧ (on_ (mouseEnv (fun _ _ => true))
            (on_ (mouseEnv (fun _ _ => true)) (new (mouseEnv (fun _ _ => true)) none none none)
              (some "swipe-left tap swiping") none none)
            (some "swipe-left tap swiping") none none).listeners
          = [("mousedown", Handler.start)] :=
  ⟨⟨"swipe-left", by decide, by decide⟩,
    (on_registers (mouseEnv (fun _ _ => true)) (new (mouseEnv (fun _ _ => true)) none none none)
      "swipe-left tap swiping" none none).2.2.1 ⟨"swipe-left", by decide, by decide⟩,
    ((on_registers (mouseEnv (fun _ _ => true)) (new (mouseEnv (fun _ _ => true)) none none none)
      "swipe-left tap swiping" none none).2.2.2.2 (mouseEnv (fun _ _ => true)) none
        none).2.2.2.trans (by decide)⟩

/-! ### Registration sets after `off` -/

/-- What `clean()` leaves: the observer is inactive and none of the four
registrations under the current native names is installed; nothing else
changes. -/
theorem clean_spec (g : Env) (s : Observer) :
    (clean g s).active = false
      ∧ (g.pointerdown, Handler.start) ∉ (clean g s).listeners
      ∧ (g.moveEvent, Handler.move) ∉ (clean g s).listeners
      ∧ (g.endEvent, Handler.end_) ∉ (clean g s).listeners
      ∧ ("mouseleave", Handler.end_) ∉ (clean g s).listeners
      ∧ (clean g s).swipeEvents = s.swipeEvents
      ∧ (clean g s).swipingEvents = s.swipingEvents
      ∧ (clean g s).threshold = s.threshold
      ∧ (clean g s).timeout = s.timeout := by
  refine ⟨rfl, ?_, ?_, ?_, ?_, rfl, rfl, rfl, rfl⟩
  · intro hm
    have h1 := ((mem_removeEventListener _ _ _ _).mp hm).1
    have h2 := ((mem_removeEventListener _ _ _ _).mp h1).1
    have h3 := ((mem_removeEventListener _ _ _ _).mp h2).1
    exact ((mem_removeEventListener _ _ _ _).mp h3).2 rfl
  · intro hm
    have h1 := ((mem_removeEventListener _ _ _ _).mp hm).1
    have h2 := ((mem_removeEventListener _ _ _ _).mp h1).1
    exact ((mem_removeEventListener _ _ _ _).mp h2).2 rfl
  · intro hm
    have h1 := ((mem_removeEventListener _ _ _ _).mp hm).1
    exact ((mem_removeEventListener _ _ _ _).mp h1).2 rfl
  · intro hm
    exact ((mem_removeEventListener _ _ _ _).mp hm).2 rfl

/-- The two registration sets after `off(list)` are those after its loop. -/
theorem off_registrations (g : Env) (s : Observer) (list : String) :
    (off g s (some list)).swipeEvents = ((recognized list).foldl unregister s).swipeEvents
      ∧ (off g s (some list)).swipingEvents
        = ((recognized list).foldl unregister s).swipingEvents := by
  rw [off_unfold]
  split_ifs
  · exact ⟨rfl, rfl⟩
  · exact ⟨rfl, rfl⟩

theorem events_eq_nil_iff (s : Observer) :
    events s = [] ↔ (s.swipeEvents.length == 0 && s.swipingEvents.length == 0) = true := by
  unfold events
  simp [List.length_eq_zero]

/-- C15: `off(list)` removes from the terminal set exactly the names of the
list that are terminal names, from the continuous set exactly the names of
the list that are continuous names, and leaves threshold and timeout as they
were; when a registration remains, the active flag and the installed
listeners are untouched, so the observer stays active with its press listener;
when none remains the observer is inactive and its press listener is removed.
After `on` with swipe-left and swiping on a new observer, `off` with swipe-left
leaves the observer active, with its press listener, and events equal to
swiping alone. -/
theorem off_unregisters :
    (∀ (g : Env) (s : Observer) (list : String),
      (off g s (some list)).swipeEvents
          = s.swipeEvents.filter
              (fun x => !(decide (x ∈ split list ' ' ∧ x ∈ availableSwipeEvents)))
        ∧ (off g s (some list)).swipingEvents
          = s.swipingEvents.filter
              (fun x => !(decide (x ∈ split list ' ' ∧ x ∈ availableSwipingEvents)))
        ∧ (off g s (some list)).threshold = s.threshold
        ∧ (off g s (some list)).timeout = s.timeout
        ∧ (events (off g s (some list)) ≠ [] →
            (off g s (some list)).active = s.active
              ∧ (off g s (some list)).listeners = s.listeners)
        ∧ (events (off g s (some list)) = [] →
            (off g s (some list)).active = false
              ∧ (g.pointerdown, Handler.start) ∉ (off g s (some list)).listeners))
    ∧ (off (mouseEnv (fun _ _ => true))
          (on_ (mouseEnv (fun _ _ => true)) (new (mouseEnv (fun _ _ => true)) none none none)
            (some "swipe-left swiping") none none)
          (some "swipe-left")).active = true
    ∧ events (off (mouseEnv (fun _ _ => true))
          (on_ (mouseEnv (fun _ _ => true)) (new (mouseEnv (fun _ _ => true)) none none none)
            (some "swipe-left swiping") none none)
          (some "swipe-left")) = ["swiping"]
    ∧ (off (mouseEnv (fun _ _ => true))
          (on_ (mouseEnv (fun _ _ => true)) (new (mouseEnv (fun _ _ => true)) none none none)
            (some "swipe-left swiping") none none)
          (some "swipe-left")).listeners = [("mousedown", Handler.start)] := by
  refine ⟨?_, by decide, by decide, by decide⟩
  intro g s list
  obtain ⟨r1, r2⟩ := off_registrations g s list
  obtain ⟨f1, f2, f3, f4⟩ := foldl_unregister_fields (recognized list) s
  refine ⟨?_, ?_, (off_threshold_timeout g s (some list)).1,
    (off_threshold_timeout g s (some list)).2, ?_, ?_⟩
  · rw [r1, foldl_unregister_swipeEvents]
    apply List.filter_congr
    intro x _
    have : (x ∈ recognized list ∧ x ∈ availableSwipeEvents)
        ↔ (x ∈ split list ' ' ∧ x ∈ availableSwipeEvents) := by
      rw [mem_recognized]
      constructor
      · rintro ⟨⟨h1, _⟩, h3⟩; exact ⟨h1, h3⟩
      · rintro ⟨h1, h3⟩; exact ⟨⟨h1, availableSwipeEvents_subset h3⟩, h3⟩
    simp only [this]
  · rw [r2, foldl_unregister_swipingEvents]
    apply List.filter_congr
    intro x _
    have : (x ∈ recognized list ∧ x ∈ availableSwipingEvents)
        ↔ (x ∈ split list ' ' ∧ x ∈ availableSwipingEvents) := by
      rw [mem_recognized]
      constructor
      · rintro ⟨⟨h1, _⟩, h3⟩; exact ⟨h1, h3⟩
      · rintro ⟨h1, h3⟩; exact ⟨⟨h1, availableSwipingEvents_subset h3⟩, h3⟩
    simp only [this]
  · intro hne
    have hne2 : events ((recognized list).foldl unregister s) ≠ [] := by
      unfold events at hne ⊢
      rw [r1, r2] at hne
      exact hne
    rw [Ne, events_eq_nil_iff] at hne2
    rw [off_unfold, if_neg hne2]
    exact ⟨f3, f4⟩
  · intro he
    have he2 : events ((recognized list).foldl unregister s) = [] := by
      unfold events at he ⊢
      rw [r1, r2] at he
      exact he
    rw [events_eq_nil_iff] at he2
    rw [off_unfold, if_pos he2]
    exact ⟨(clean_spec g _).1, (clean_spec g _).2.1⟩

/-! ### `off()` without argument -/

/-- What `off()` leaves in every state: no registration, an inactive observer,
and none of the four listener registrations under the current native names;
threshold and timeout are untouched. -/
theorem off_all_spec (g : Env) (s : Observer) :
    events (off g s none) = []
      ∧ (off g s none).active = false
      ∧ (g.pointerdown, Handler.start) ∉ (off g s none).listeners
      ∧ (g.moveEvent, Handler.move) ∉ (off g s none).listeners
      ∧ (g.endEvent, Handler.end_) ∉ (off g s none).listeners
      ∧ ("mouseleave", Handler.end_) ∉ (off g s none).listeners
      ∧ (off g s none).threshold = s.threshold
      ∧ (off g s none).timeout = s.timeout := by
  have h := clean_spec g { s with swipeEvents := [], swipingEvents := [] }
  exact ⟨rfl, rfl, h.2.1, h.2.2.1, h.2.2.2.1, h.2.2.2.2.1, rfl, rfl⟩

/-- On an observer constructed without event list, `off()` under any
environment changes nothing. -/
theorem off_all_fresh (g g2 : Env) (threshold timeout : Option Int) :
    off g2 (new g none threshold timeout) none = new g none threshold timeout := by
  rfl

/-- C16: the code on a host with pointer events, where the detector starts
with the pointer type touch and the static names touchmove and touchend.
An observer is constructed with swipe; a mouse press on the surface, not
preceded by a pointer move, runs `#startListener`, which installs its listeners
under touchmove, touchend and mouseleave; the same event then reaches the
detector and the static names become mousemove and mouseup. `off()` now
removes the registrations under pointerdown, mousemove, mouseup and
mouseleave: the observer is inactive with no event registered, but its move
and release listeners are still installed, where the claim requires that none
remains. -/
theorem off_all_after_pointer_change :
    envAtLoad.moveEvent = "touchmove" ∧ envAtLoad.endEvent = "touchend"
      ∧ envAfterMouseDown.moveEvent = "mousemove" ∧ envAfterMouseDown.endEvent = "mouseup"
      ∧ envAfterMouseDown.currentPointerType = "mouse"
      ∧ (pressedAtLoad "swipe").listeners
          = [("pointerdown", Handler.start), ("touchmove", Handler.move),
              ("touchend", Handler.end_), ("mouseleave", Handler.end_)]
      ∧ events (off envAfterMouseDown (pressedAtLoad "swipe") none) = []
      ∧ (off envAfterMouseDown (pressedAtLoad "swipe") none).active = false
      ∧ (off envAfterMouseDown (pressedAtLoad "swipe") none).listeners
          = [("touchmove", Handler.move), ("touchend", Handler.end_)] := by
  decide

/-! ### The event list of the class documentation -/

/-- C17: the code on the event string of the first example of the class
documentation, swipe-right followed by a comma, a space and swipe-left. The
list is split at spaces only, so its first name keeps the comma and is not
recognized: the constructor registers swipe-left alone, a swipe to the right
dispatches nothing, and `off` with the same string has only swipe-left to
remove. -/
theorem new_comma_separated_list :
    split "swipe-right, swipe-left" ' ' = ["swipe-right,", "swipe-left"]
      ∧ recognized "swipe-right, swipe-left" = ["swipe-left"]
      ∧ events (new (mouseEnv (fun _ _ => true)) (some "swipe-right, swipe-left") none none)
          = ["swipe-left"]
      ∧ "swipe-right"
          ∉ events (new (mouseEnv (fun _ _ => true)) (some "swipe-right, swipe-left") none none)
      ∧ rightSwipe "swipe-right, swipe-left" = []
      ∧ (rightSwipe "swipe-right swipe-left").map CustomEvent.name = ["swipe-right"]
      ∧ events (off (mouseEnv (fun _ _ => true))
            (new (mouseEnv (fun _ _ => true)) (some "swipe-right, swipe-left") none none)
            (some "swipe-right, swipe-left")) = [] := by
  decide

/-! ### Registrations and the active flag -/

theorem setAdd_nodup {xs : List String} (x : String) (h : xs.Nodup) : (setAdd xs x).Nodup := by
  unfold setAdd
  split_ifs with hm
  · exact h
  · rw [List.nodup_append]
    refine ⟨h, List.nodup_singleton _, ?_⟩
    intro a ha hb
    rw [List.mem_singleton] at hb
    exact hm (hb ▸ ha)

theorem foldl_register_nodup (evs : List String) (s : Observer)
    (h1 : s.swipeEvents.Nodup) (h2 : s.swipingEvents.Nodup) :
    (evs.foldl register s).swipeEvents.Nodup ∧ (evs.foldl register s).swipingEvents.Nodup := by
  induction evs generalizing s with
  | nil => exact ⟨h1, h2⟩
  | cons e es ih =>
    simp only [List.foldl_cons]
    apply ih (register s e)
    · rw [register_swipeEvents]
      split_ifs
      · exact setAdd_nodup e h1
      · exact h1
    · rw [register_swipingEvents]
      split_ifs
      · exact setAdd_nodup e h2
      · exact h2

theorem on_none_eq (g : Env) (s : Observer) (threshold timeout : Option Int) :
    on_ g s none threshold timeout = on_ g s (some "swipe") threshold timeout := by
  rfl

theorem mem_availableEvents {e : String} (h : e ∈ availableEvents) :
    e ∈ availableSwipeEvents ∨ e ∈ availableSwipingEvents := by
  unfold availableEvents at h
  exact List.mem_append.mp h

/-- The three facts kept by `on`: the active flag says whether a name is
registered, each set holds names of its own vocabulary, and no set holds a
name twice. -/
theorem on_keeps (g : Env) (s : Observer) (list : String) (threshold timeout : Option Int)
    (hA : s.active = true ↔ events s ≠ [])
    (hB1 : ∀ e, e ∈ s.swipeEvents → e ∈ availableSwipeEvents)
    (hB2 : ∀ e, e ∈ s.swipingEvents → e ∈ availableSwipingEvents)
    (hC1 : s.swipeEvents.Nodup) (hC2 : s.swipingEvents.Nodup) :
    ((on_ g s (some list) threshold timeout).active = true
        ↔ events (on_ g s (some list) threshold timeout) ≠ [])
      ∧ (∀ e, e ∈ (on_ g s (some list) threshold timeout).swipeEvents →
          e ∈ availableSwipeEvents)
      ∧ (∀ e, e ∈ (on_ g s (some list) threshold timeout).swipingEvents →
          e ∈ availableSwipingEvents)
      ∧ (on_ g s (some list) threshold timeout).swipeEvents.Nodup
      ∧ (on_ g s (some list) threshold timeout).swipingEvents.Nodup := by
  obtain ⟨r1, r2⟩ := on_registrations g s list threshold timeout
  obtain ⟨n1, n2⟩ := foldl_register_nodup (recognized list) s hC1 hC2
  refine ⟨?_, ?_, ?_, by rw [r1]; exact n1, by rw [r2]; exact n2⟩
  · by_cases hl : (recognized list).length > 0
    · have hact := (on_active g s list threshold timeout hl).1
      rw [hact]
      refine ⟨fun _ => ?_, fun _ => rfl⟩
      obtain ⟨e, he⟩ := List.length_pos_iff_exists_mem.mp hl
      have hv := ((mem_recognized list e).mp he).2
      unfold events
      rw [r1, r2]
      intro hnil
      obtain ⟨z1, z2⟩ := List.append_eq_nil.mp hnil
      rcases mem_availableEvents hv with h | h
      · have : e ∈ ((recognized list).foldl register s).swipeEvents :=
          (mem_foldl_register_swipeEvents _ s e).mpr (Or.inr ⟨he, h⟩)
        rw [z1] at this
        cases this
      · have : e ∈ ((recognized list).foldl register s).swipingEvents :=
          (mem_foldl_register_swipingEvents _ s e).mpr (Or.inr ⟨he, h⟩)
        rw [z2] at this
        cases this
    · have hs : on_ g s (some list) threshold timeout = s := by
        rw [on_unfold]
        simp only [Option.getD_some, hl, if_false]
      rw [hs]
      exact hA
  · intro e he
    rw [r1, mem_foldl_register_swipeEvents] at he
    rcases he with h | ⟨_, h⟩
    · exact hB1 e h
    · exact h
  · intro e he
    rw [r2, mem_foldl_register_swipingEvents] at he
    rcases he with h | ⟨_, h⟩
    · exact hB2 e h
    · exact h

/-- The same three facts are kept by `off` on a list. -/
theorem off_keeps (g : Env) (s : Observer) (list : String)
    (hA : s.active = true ↔ events s ≠ [])
    (hB1 : ∀ e, e ∈ s.swipeEvents → e ∈ availableSwipeEvents)
    (hB2 : ∀ e, e ∈ s.swipingEvents → e ∈ availableSwipingEvents)
    (hC1 : s.swipeEvents.Nodup) (hC2 : s.swipingEvents.Nodup) :
    ((off g s (some list)).active = true ↔ events (off g s (some list)) ≠ [])
      ∧ (∀ e, e ∈ (off g s (some list)).swipeEvents → e ∈ availableSwipeEvents)
      ∧ (∀ e, e ∈ (off g s (some list)).swipingEvents → e ∈ availableSwipingEvents)
      ∧ (off g s (some list)).swipeEvents.Nodup
      ∧ (off g s (some list)).swipingEvents.Nodup := by
  obtain ⟨r1, r2⟩ := off_registrations g s list
  have q1 := foldl_unregister_swipeEvents (recognized list) s
  have q2 := foldl_unregister_swipingEvents (recognized list) s
  refine ⟨?_, ?_, ?_, ?_, ?_⟩
  · by_cases hz : (((recognized list).foldl unregister s).swipeEvents.length == 0
        && ((recognized list).foldl unregister s).swipingEvents.length == 0) = true
    · have he : events (off g s (some list)) = [] := by
        unfold events
        rw [r1, r2]
        exact (events_eq_nil_iff _).mpr hz
      have ha : (off g s (some list)).active = false := by
        rw [off_unfold, if_pos hz]
        exact (clean_spec g _).1
      rw [ha, he]
      simp
    · have he : events (off g s (some list)) ≠ [] := by
        unfold events
        rw [r1, r2]
        exact fun h => hz ((events_eq_nil_iff _).mp h)
      have ha : (off g s (some list)).active = s.active := by
        rw [off_unfold, if_neg hz]
        exact (foldl_unregister_fields (recognized list) s).2.2.1
      have hs : events s ≠ [] := by
        intro hnil
        unfold events at hnil
        obtain ⟨z1, z2⟩ := List.append_eq_nil.mp hnil
        apply he
        unfold events
        rw [r1, r2, q1, q2, z1, z2]
        rfl
      rw [ha]
      exact ⟨fun _ => he, fun _ => hA.mpr hs⟩
  · intro e he
    rw [r1, q1] at he
    exact hB1 e (List.mem_filter.mp he).1
  · intro e he
    rw [r2, q2] at he
    exact hB2 e (List.mem_filter.mp he).1
  · rw [r1, q1]
    exact hC1.filter _
  · rw [r2, q2]
    exact hC2.filter _

/-- The invariant of the public interface, set by set. -/
theorem configured_registrations (s : Observer) (h : Configured s) :
    (s.active = true ↔ events s ≠ [])
      ∧ (∀ e, e ∈ s.swipeEvents → e ∈ availableSwipeEvents)
      ∧ (∀ e, e ∈ s.swipingEvents → e ∈ availableSwipingEvents)
      ∧ s.swipeEvents.Nodup
      ∧ s.swipingEvents.Nodup := by
  have base : ((({} : Observer).active = true ↔ events ({} : Observer) ≠ [])
      ∧ (∀ e, e ∈ ({} : Observer).swipeEvents → e ∈ availableSwipeEvents)
      ∧ (∀ e, e ∈ ({} : Observer).swipingEvents → e ∈ availableSwipingEvents)
      ∧ ({} : Observer).swipeEvents.Nodup
      ∧ ({} : Observer).swipingEvents.Nodup) := by
    refine ⟨by decide, ?_, ?_, List.nodup_nil, List.nodup_nil⟩
    · intro e he; cases he
    · intro e he; cases he
  induction h with
  | new g events threshold timeout =>
    cases events with
    | none =>
      refine ⟨?_, ?_, ?_, List.nodup_nil, List.nodup_nil⟩
      · change (false = true ↔ ([] : List String) ≠ [])
        simp
      · intro e he; cases he
      · intro e he; cases he
    | some list =>
      exact on_keeps g {} list threshold timeout base.1 base.2.1 base.2.2.1 base.2.2.2.1
        base.2.2.2.2
  | on_ g s events threshold timeout _ ih =>
    cases events with
    | none =>
      rw [on_none_eq]
      exact on_keeps g s "swipe" threshold timeout ih.1 ih.2.1 ih.2.2.1 ih.2.2.2.1 ih.2.2.2.2
    | some list =>
      exact on_keeps g s list threshold timeout ih.1 ih.2.1 ih.2.2.1 ih.2.2.2.1 ih.2.2.2.2
  | off g s events _ ih =>
    cases events with
    | none =>
      refine ⟨?_, ?_, ?_, List.nodup_nil, List.nodup_nil⟩
      · change (false = true ↔ ([] : List String) ≠ [])
        simp
      · intro e he; cases he
      · intro e he; cases he
    | some list =>
      exact off_keeps g s list ih.1 ih.2.1 ih.2.2.1 ih.2.2.2.1 ih.2.2.2.2
  | setThreshold s t _ ih => exact ih
  | setTimeout s t _ ih => exact ih

/-- C24: in every state reached from the constructor by `on` and `off` (and by
the two setters), whatever the arguments, the observer is active if and only
if the events accessor is not empty; every name the accessor returns is one of
the ten available names; and the accessor returns no name twice. -/
theorem configured_active_iff_registered (s : Observer) (h : Configured s) :
    (s.active = true ↔ events s ≠ [])
      ∧ (∀ e, e ∈ events s → e ∈ availableEvents)
      ∧ (events s).Nodup := by
  obtain ⟨hA, hB1, hB2, hC1, hC2⟩ := configured_registrations s h
  refine ⟨hA, ?_, ?_⟩
  · intro e he
    unfold events at he
    rcases List.mem_append.mp he with h1 | h1
    · exact availableSwipeEvents_subset (hB1 e h1)
    · exact availableSwipingEvents_subset (hB2 e h1)
  · unfold events
    rw [List.nodup_append]
    refine ⟨hC1, hC2, ?_⟩
    intro a h1 h2
    have v1 := hB1 a h1
    have v2 := hB2 a h2
    have hd : ∀ x, x ∈ availableSwipeEvents → x ∉ availableSwipingEvents := by decide
    exact hd a v1 v2

/-- C24, on the state reached by constructing with swipe-left and swiping,
registering swipe-left and an unknown name again, and unregistering swiping:
the observer is active and the accessor returns swipe-left once. -/
theorem configured_active_iff_registered_witness :
    (off (mouseEnv (fun _ _ => true))
        (on_ (mouseEnv (fun _ _ => true))
          (new (mouseEnv (fun _ _ => true)) (some "swipe-left swiping") none none)
          (some "swipe-left tap") none none)
        (some "swiping")).active = true
      ∧ events (off (mouseEnv (fun _ _ => true))
          (on_ (mouseEnv (fun _ _ => true))
            (new (mouseEnv (fun _ _ => true)) (some "swipe-left swiping") none none)
            (some "swipe-left tap") none none)
          (some "swiping")) = ["swipe-left"] :=
  ⟨(configured_active_iff_registered _
      (Configured.off _ _ _ (Configured.on_ _ _ _ _ _ (Configured.new _ _ _ _)))).1.mpr
      (by decide),
    by decide⟩

/-! ### A press without movement -/

theorem classify_zero (th : Int) (h : 0 ≤ th) : classify 0 0 th = none := by
  unfold classify
  have h1 : ¬ ((0 : Int).natAbs > (0 : Int).natAbs) := by decide
  have h2 : ¬ ((((0 : Int).natAbs : Nat) : Int) > th) := by
    simp only [Int.natAbs_zero, Nat.cast_zero]
    omega
  rw [if_neg h1, if_neg h2]

/-- With a zero delta and a threshold that is not negative, `#endListener`
dispatches nothing; delta and threshold are kept. -/
theorem endListener_zero_delta (g : Env) (s : Observer) (nowData nowCheck : Int)
    (hx : s.deltaX = 0) (hy : s.deltaY = 0) (hth : 0 ≤ s.threshold) :
    (endListener g s nowData nowCheck).dispatched = []
      ∧ (endListener g s nowData nowCheck).state.deltaX = 0
      ∧ (endListener g s nowData nowCheck).state.deltaY = 0
      ∧ (endListener g s nowData nowCheck).state.threshold = s.threshold := by
  refine ⟨?_, hx, hy, rfl⟩
  have hc : classify s.deltaX s.deltaY s.threshold = none := by
    rw [hx, hy]
    exact classify_zero _ hth
  rw [endListener_dispatched, (getEventData_eq_none_iff g s false nowData).mpr hc]

/-- A sample that is not cancelable and not late leaves everything as it
is. -/
theorem moveListener_ignored (g : Env) (s : Observer) (e : PointerEvent)
    (nowDeadline nowData nowCheck : Int)
    (hc : e.cancelable = false) (hd : nowDeadline - toNumber s.t ≤ s.timeout) :
    moveListener g s e nowDeadline nowData nowCheck
      = { state := s, dispatched := [], defaultPrevented := false } := by
  have hd2 : ¬ (nowDeadline - toNumber s.t > s.timeout) := by omega
  unfold moveListener
  simp only [hd2, if_false, hc, Bool.false_eq_true]
  split_ifs <;> rfl

/-- With a zero delta and a threshold that is not negative, a sample that is
not a qualifying one dispatches nothing and leaves the delta at zero. -/
theorem moveListener_non_qualifying (s : Observer) (m : Sample)
    (hq : qualifying s m = false)
    (hx : s.deltaX = 0) (hy : s.deltaY = 0) (hth : 0 ≤ s.threshold) :
    (moveListener m.env s m.e m.nowDeadline m.nowData m.nowCheck).dispatched = []
      ∧ (moveListener m.env s m.e m.nowDeadline m.nowData m.nowCheck).state.deltaX = 0
      ∧ (moveListener m.env s m.e m.nowDeadline m.nowData m.nowCheck).state.deltaY = 0
      ∧ (moveListener m.env s m.e m.nowDeadline m.nowData m.nowCheck).state.threshold
          = s.threshold := by
  by_cases hf : falsy s.startPageX = true ∨ falsy s.startPageY = true
  · rw [moveListener_falsy_start m.env s m.e m.nowDeadline m.nowData m.nowCheck hf]
    exact ⟨rfl, hx, hy, rfl⟩
  · have hfx : falsy s.startPageX = false := by
      cases h : falsy s.startPageX
      · rfl
      · exact absurd (Or.inl h) hf
    have hfy : falsy s.startPageY = false := by
      cases h : falsy s.startPageY
      · rfl
      · exact absurd (Or.inr h) hf
    by_cases hd : m.nowDeadline - toNumber s.t > s.timeout
    · rw [moveListener_late_eq m.env s m.e m.nowDeadline m.nowData m.nowCheck hfx hfy hd]
      exact endListener_zero_delta m.env s m.nowData m.nowCheck hx hy hth
    · have hd2 : m.nowDeadline - toNumber s.t ≤ s.timeout := by omega
      cases hc : m.e.cancelable
      · rw [moveListener_ignored m.env s m.e m.nowDeadline m.nowData m.nowCheck hc hd2]
        exact ⟨rfl, hx, hy, rfl⟩
      · have hout : m.env.contains (primary m.e).clientX (primary m.e).clientY = false := by
          unfold qualifying at hq
          simp only [hfx, hfy, Bool.or_self, Bool.not_false, Bool.true_and, hd2, decide_True,
            hc] at hq
          exact hq
        rw [moveListener_outside_eq m.env s m.e m.nowDeadline m.nowData m.nowCheck hfx hfy hd2 hc
          hout]
        exact endListener_zero_delta m.env s m.nowData m.nowCheck hx hy hth

theorem moveAll_non_qualifying (ms : List Sample) (s : Observer)
    (hq : noneQualifying s ms)
    (hx : s.deltaX = 0) (hy : s.deltaY = 0) (hth : 0 ≤ s.threshold) :
    (moveAll s ms).2 = []
      ∧ (moveAll s ms).1.deltaX = 0
      ∧ (moveAll s ms).1.deltaY = 0
      ∧ (moveAll s ms).1.threshold = s.threshold := by
  induction ms generalizing s with
  | nil => exact ⟨rfl, hx, hy, rfl⟩
  | cons m rest ih =>
    obtain ⟨q1, q2⟩ := hq
    obtain ⟨h1, h2, h3, h4⟩ := moveListener_non_qualifying s m q1 hx hy hth
    obtain ⟨i1, i2, i3, i4⟩ := ih _ q2 h2 h3 (by rw [h4]; exact hth)
    refine ⟨?_, i2, i3, i4.trans h4⟩
    change (moveListener m.env s m.e m.nowDeadline m.nowData m.nowCheck).dispatched
      ++ (moveAll (moveListener m.env s m.e m.nowDeadline m.nowData m.nowCheck).state rest).2 = []
    rw [h1, i1]
    rfl

/-- C25: in every state with a positive threshold, whatever its registrations
and the delta left by an earlier gesture, a press sets the delta to (0,0);
the move samples that follow, none of them a qualifying one, dispatch nothing
and leave the delta at (0,0); and the release or leave that ends the gesture
dispatches nothing, under any environments and clock reads. -/
theorem press_release_dispatches_nothing (g gEnd : Env) (s : Observer) (e : PointerEvent)
    (now nowData nowCheck : Int) (ms : List Sample)
    (hth : 0 < s.threshold)
    (hq : noneQualifying (startListener g s e now) ms) :
    (startListener g s e now).deltaX = 0
      ∧ (startListener g s e now).deltaY = 0
      ∧ classify (startListener g s e now).deltaX (startListener g s e now).deltaY
          (startListener g s e now).threshold = none
      ∧ (moveAll (startListener g s e now) ms).2 = []
      ∧ (endListener gEnd (moveAll (startListener g s e now) ms).1 nowData nowCheck).dispatched
          = [] := by
  have hx : (startListener g s e now).deltaX = 0 := rfl
  have hy : (startListener g s e now).deltaY = 0 := rfl
  have ht : (0 : Int) ≤ (startListener g s e now).threshold := by
    change 0 ≤ s.threshold
    omega
  obtain ⟨m1, m2, m3, m4⟩ := moveAll_non_qualifying ms (startListener g s e now) hq hx hy ht
  refine ⟨hx, hy, ?_, m1, ?_⟩
  · rw [hx, hy]
    exact classify_zero _ ht
  · exact (endListener_zero_delta gEnd _ nowData nowCheck m2 m3 (by rw [m4]; exact ht)).1

/-- C25, on the observer left by a left drag of 40 pixels with swipe
registered: a new press at (300,300), a move sample that is not cancelable and
a release 100 ms after the press dispatch nothing. -/
theorem press_release_dispatches_nothing_witness :
    ((dragged "swipe").state.deltaX = -40
        ∧ 0 < (dragged "swipe").state.threshold
        ∧ noneQualifying
            (startListener (mouseEnv (fun _ _ => true)) (dragged "swipe").state
              (mouseAt 300 300 true) 1000)
            [{ env := mouseEnv (fun _ _ => true), e := mouseAt 200 300 false,
               nowDeadline := 1050, nowData := 1050, nowCheck := 1050 }])
      ∧ (endListener (mouseEnv (fun _ _ => true))
            (moveAll
              (startListener (mouseEnv (fun _ _ => true)) (dragged "swipe").state
                (mouseAt 300 300 true) 1000)
              [{ env := mouseEnv (fun _ _ => true), e := mouseAt 200 300 false,
                 nowDeadline := 1050, nowData := 1050, nowCheck := 1050 }]).1
            1100 1100).dispatched = [] :=
  ⟨⟨by decide, by decide, by decide, trivial⟩,
    (press_release_dispatches_nothing (mouseEnv (fun _ _ => true)) (mouseEnv (fun _ _ => true))
      (dragged "swipe").state (mouseAt 300 300 true) 1000 1100 1100
      [{ env := mouseEnv (fun _ _ => true), e := mouseAt 200 300 false,
         nowDeadline := 1050, nowData := 1050, nowCheck := 1050 }]
      (by decide) ⟨by decide, trivial⟩).2.2.2.2⟩

/-! ### Installed listeners -/

theorem mem_addEventListener (ls : List Listener) (name : String) (h : Handler) (l : Listener) :
    l ∈ addEventListener ls name h ↔ l ∈ ls ∨ l = (name, h) := by
  unfold addEventListener
  split_ifs with hm
  · constructor
    · intro hl; exact Or.inl hl
    · rintro (hl | rfl)
      · exact hl
      · exact hm
  · simp

/-- The state after `#moveListener` is either that after `#endListener`, or
has the listeners, the active flag and the timestamp of before. -/
theorem moveListener_state_cases (g : Env) (s : Observer) (e : PointerEvent)
    (nowDeadline nowData nowCheck : Int) :
    (moveListener g s e nowDeadline nowData nowCheck).state
        = (endListener g s nowData nowCheck).state
      ∨ ((moveListener g s e nowDeadline nowData nowCheck).state.listeners = s.listeners
        ∧ (moveListener g s e nowDeadline nowData nowCheck).state.active = s.active
        ∧ (moveListener g s e nowDeadline nowData nowCheck).state.t = s.t) := by
  by_cases hf : falsy s.startPageX = true ∨ falsy s.startPageY = true
  · rw [moveListener_falsy_start g s e nowDeadline nowData nowCheck hf]
    exact Or.inr ⟨rfl, rfl, rfl⟩
  · have hfx : falsy s.startPageX = false := by
      cases h : falsy s.startPageX
      · rfl
      · exact absurd (Or.inl h) hf
    have hfy : falsy s.startPageY = false := by
      cases h : falsy s.startPageY
      · rfl
      · exact absurd (Or.inr h) hf
    by_cases hd : nowDeadline - toNumber s.t > s.timeout
    · rw [moveListener_late_eq g s e nowDeadline nowData nowCheck hfx hfy hd]
      exact Or.inl rfl
    · have hd2 : nowDeadline - toNumber s.t ≤ s.timeout := by omega
      cases hc : e.cancelable
      · rw [moveListener_ignored g s e nowDeadline nowData nowCheck hc hd2]
        exact Or.inr ⟨rfl, rfl, rfl⟩
      · cases hin : g.contains (primary e).clientX (primary e).clientY
        · rw [moveListener_outside_eq g s e nowDeadline nowData nowCheck hfx hfy hd2 hc hin]
          exact Or.inl rfl
        · rw [moveListener_qualifying g s e nowDeadline nowData nowCheck hfx hfy hd2 hc hin]
          exact Or.inr ⟨rfl, rfl, rfl⟩

theorem listenersMatch_of_same {g : Env} {s s2 : Observer}
    (hl : s2.listeners = s.listeners) (ha : s2.active = s.active) (ht : s2.t = s.t)
    (h : ListenersMatch g s) : ListenersMatch g s2 := by
  unfold ListenersMatch at h ⊢
  rw [hl, ha, ht]
  exact h

theorem listenersMatch_clean (g : Env) (s : Observer) (h : ListenersMatch g s) :
    ListenersMatch g (clean g s) := by
  obtain ⟨c1, c2, c3, c4, c5, _⟩ := clean_spec g s
  refine ⟨?_, ?_, ?_⟩
  · rw [c1]
    constructor
    · intro hm; exact absurd hm c2
    · intro hf; cases hf
  · intro l hl
    have h1 := ((mem_removeEventListener _ _ _ _).mp hl).1
    have h2 := ((mem_removeEventListener _ _ _ _).mp h1).1
    have h3 := ((mem_removeEventListener _ _ _ _).mp h2).1
    have h4 := ((mem_removeEventListener _ _ _ _).mp h3).1
    exact h.2.1 l h4
  · rintro (hm | hm | hm)
    · exact absurd hm c3
    · exact absurd hm c4
    · exact absurd hm c5

theorem listenersMatch_endListener (g : Env) (s : Observer) (nowData nowCheck : Int)
    (h : ListenersMatch g s) : ListenersMatch g (endListener g s nowData nowCheck).state := by
  obtain ⟨_, _, _, _, _, i6, i7, i8, _, _⟩ := endListener_idle g s nowData nowCheck
  refine ⟨?_, ?_, ?_⟩
  · change (g.pointerdown, Handler.start)
        ∈ removeEventListener
            (removeEventListener (removeEventListener s.listeners g.moveEvent Handler.move)
              g.endEvent Handler.end_)
            "mouseleave" Handler.end_ ↔ s.active = true
    rw [mem_removeEventListener, mem_removeEventListener, mem_removeEventListener, ← h.1]
    constructor
    · intro hm; exact hm.1.1.1
    · intro hm
      refine ⟨⟨⟨hm, ?_⟩, ?_⟩, ?_⟩ <;> simp
  · intro l hl
    have h1 := ((mem_removeEventListener _ _ _ _).mp hl).1
    have h2 := ((mem_removeEventListener _ _ _ _).mp h1).1
    have h3 := ((mem_removeEventListener _ _ _ _).mp h2).1
    exact h.2.1 l h3
  · rintro (hm | hm | hm)
    · exact absurd hm i6
    · exact absurd hm i7
    · exact absurd hm i8

theorem listenersMatch_startListener (g : Env) (s : Observer) (e : PointerEvent) (now : Int)
    (h : ListenersMatch g s) : ListenersMatch g (startListener g s e now) := by
  have hl : ∀ l, l ∈ (startListener g s e now).listeners ↔
      (((l ∈ s.listeners ∨ l = (g.moveEvent, Handler.move)) ∨ l = (g.endEvent, Handler.end_))
        ∨ l = ("mouseleave", Handler.end_)) := by
    intro l
    change l ∈ addEventListener
        (addEventListener (addEventListener s.listeners g.moveEvent Handler.move)
          g.endEvent Handler.end_)
        "mouseleave" Handler.end_ ↔ _
    rw [mem_addEventListener, mem_addEventListener, mem_addEventListener]
  refine ⟨?_, ?_, ?_⟩
  · rw [hl]
    change _ ↔ s.active = true
    rw [← h.1]
    constructor
    · rintro (((hm | hm) | hm) | hm)
      · exact hm
      · simp at hm
      · simp at hm
      · simp at hm
    · intro hm; exact Or.inl (Or.inl (Or.inl hm))
  · intro l hm
    rcases (hl l).mp hm with ((hm | hm) | hm) | hm
    · exact h.2.1 l hm
    · exact Or.inr (Or.inl hm)
    · exact Or.inr (Or.inr (Or.inl hm))
    · exact Or.inr (Or.inr (Or.inr hm))
  · intro _ ht
    cases ht

theorem foldl_register_t (evs : List String) (s : Observer) :
    (evs.foldl register s).t = s.t := by
  rw [foldl_register_frame]

theorem foldl_unregister_t (evs : List String) (s : Observer) :
    (evs.foldl unregister s).t = s.t := by
  rw [foldl_unregister_frame]

theorem listenersMatch_on (g : Env) (s : Observer) (events : Option String)
    (threshold timeout : Option Int) (h : ListenersMatch g s) :
    ListenersMatch g (on_ g s events threshold timeout) := by
  obtain ⟨_, _, f3, f4⟩ := foldl_register_fields (recognized (events.getD "swipe")) s
  have ft := foldl_register_t (recognized (events.getD "swipe")) s
  rw [on_unfold]
  split_ifs with h1 h2
  · have ha : s.active = false := by
      rw [f3] at h2
      simpa using h2
    refine ⟨?_, ?_, ?_⟩
    · change (g.pointerdown, Handler.start)
          ∈ addEventListener ((recognized (events.getD "swipe")).foldl register s).listeners
              g.pointerdown Handler.start ↔ true = true
      rw [mem_addEventListener]
      exact ⟨fun _ => rfl, fun _ => Or.inr rfl⟩
    · intro l hl
      change l ∈ addEventListener ((recognized (events.getD "swipe")).foldl register s).listeners
          g.pointerdown Handler.start at hl
      rw [mem_addEventListener, f4] at hl
      rcases hl with hl | hl
      · exact h.2.1 l hl
      · exact Or.inl hl
    · intro hm
      change ((recognized (events.getD "swipe")).foldl register s).t ≠ none
      rw [ft]
      apply h.2.2
      change (g.moveEvent, Handler.move)
          ∈ addEventListener ((recognized (events.getD "swipe")).foldl register s).listeners
              g.pointerdown Handler.start
        ∨ (g.endEvent, Handler.end_)
          ∈ addEventListener ((recognized (events.getD "swipe")).foldl register s).listeners
              g.pointerdown Handler.start
        ∨ ("mouseleave", Handler.end_)
          ∈ addEventListener ((recognized (events.getD "swipe")).foldl register s).listeners
              g.pointerdown Handler.start at hm
      rw [mem_addEventListener, mem_addEventListener, mem_addEventListener, f4] at hm
      rcases hm with (hm | hm) | (hm | hm) | (hm | hm)
      · exact Or.inl hm
      · simp at hm
      · exact Or.inr (Or.inl hm)
      · simp at hm
      · exact Or.inr (Or.inr hm)
      · simp at hm
  · exact listenersMatch_of_same f4 f3 ft h
  · exact h

theorem listenersMatch_off (g : Env) (s : Observer) (events : Option String)
    (h : ListenersMatch g s) : ListenersMatch g (off g s events) := by
  cases events with
  | none =>
    change ListenersMatch g (clean g { s with swipeEvents := [], swipingEvents := [] })
    apply listenersMatch_clean
    exact listenersMatch_of_same rfl rfl rfl h
  | some list =>
    obtain ⟨_, _, f3, f4⟩ := foldl_unregister_fields (recognized list) s
    have ft := foldl_unregister_t (recognized list) s
    have hfold : ListenersMatch g ((recognized list).foldl unregister s) :=
      listenersMatch_of_same f4 f3 ft h
    rw [off_unfold]
    split_ifs
    · exact listenersMatch_clean g _ hfold
    · exact hfold

theorem listenersMatch_new (g : Env) (events : Option String) (threshold timeout : Option Int) :
    ListenersMatch g (new g events threshold timeout) := by
  have base : ListenersMatch g {} := by
    refine ⟨?_, ?_, ?_⟩
    · change (g.pointerdown, Handler.start) ∈ ([] : List Listener) ↔ false = true
      simp
    · intro l hl; cases hl
    · rintro (hm | hm | hm) <;> cases hm
  cases events with
  | none => exact listenersMatch_of_same rfl rfl rfl base
  | some list => exact listenersMatch_on g {} (some list) threshold timeout base

/-- While the environment does not change, the installed listeners match the
state in every reachable state. -/
theorem reachable_listenersMatch (g : Env) (s : Observer) (h : Reachable g s) :
    ListenersMatch g s := by
  induction h with
  | new events threshold timeout => exact listenersMatch_new g events threshold timeout
  | on_ s events threshold timeout _ ih => exact listenersMatch_on g s events threshold timeout ih
  | off s events _ ih => exact listenersMatch_off g s events ih
  | setThreshold s t _ ih => exact listenersMatch_of_same rfl rfl rfl ih
  | setTimeout s t _ ih => exact listenersMatch_of_same rfl rfl rfl ih
  | press s e now _ ih => exact listenersMatch_startListener g s e now ih
  | move s e nowDeadline nowData nowCheck _ ih =>
    rcases moveListener_state_cases g s e nowDeadline nowData nowCheck with hc | ⟨h1, h2, h3⟩
    · rw [hc]
      exact listenersMatch_endListener g s nowData nowCheck ih
    · exact listenersMatch_of_same h1 h2 h3 ih
  | release s nowData nowCheck _ ih => exact listenersMatch_endListener g s nowData nowCheck ih

/-- C22: the code on a host with pointer events, where the detector starts
with the pointer type touch. An observer is constructed with swipe; a mouse
press on the surface, not preceded by a pointer move, installs the move and
release listeners under touchmove and touchend; the same event then reaches
the detector and the names of the current pointer type become mousemove and
mouseup. From then on the installed listeners do not match the state: during
the gesture they are not under the current names, and once the mouse leaves
the surface `#endListener` removes the registrations under mousemove, mouseup
and mouseleave, so the observer is idle while its move and release listeners
are still installed. -/
theorem listeners_after_pointer_change :
    ListenersMatch envAtLoad (pressedAtLoad "swipe")
      ∧ (pressedAtLoad "swipe").listeners
          = [("pointerdown", Handler.start), ("touchmove", Handler.move),
              ("touchend", Handler.end_), ("mouseleave", Handler.end_)]
      ∧ envAfterMouseDown.moveEvent = "mousemove" ∧ envAfterMouseDown.endEvent = "mouseup"
      ∧ ¬ ListenersMatch envAfterMouseDown (pressedAtLoad "swipe")
      ∧ (endListener envAfterMouseDown (pressedAtLoad "swipe") 500 500).state.t = none
      ∧ (endListener envAfterMouseDown (pressedAtLoad "swipe") 500 500).state.active = true
      ∧ (endListener envAfterMouseDown (pressedAtLoad "swipe") 500 500).state.listeners
          = [("pointerdown", Handler.start), ("touchmove", Handler.move),
              ("touchend", Handler.end_)]
      ∧ ¬ ListenersMatch envAfterMouseDown
          (endListener envAfterMouseDown (pressedAtLoad "swipe") 500 500).state := by
  refine ⟨?_, by decide, by decide, by decide, ?_, by decide, by decide, by decide, ?_⟩
  · exact reachable_listenersMatch envAtLoad _ (Reachable.press _ _ _ (Reachable.new _ _ _))
  · intro hm
    have h := hm.2.1 ("touchmove", Handler.move) (by decide)
    revert h
    decide
  · intro hm
    have h := hm.2.1 ("touchmove", Handler.move) (by decide)
    revert h
    decide

end SwipeObserver

namespace PointerDetector

/-! ## The detector -/

/-- C18: for every pair of capability flags the interface is pointer when
`PointerEvent` is present, else touch when `TouchEvent` is present, else
mouse; the names derived are those of the table (pointer: pointerenter,
pointerleave, pointerup, pointerdown, pointermove; touch: none, none,
touchend, touchstart, touchmove; mouse: mouseenter, mouseleave, mouseup,
mousedown, mousemove); and the initial pointer type is mouse exactly when the
interface is mouse, and touch otherwise. -/
theorem new_interface_table (w : Window) :
    (new none w).data.pointerEventsInterface
        = (if w.hasPointerEvent then "pointer" else if w.hasTouchEvent then "touch" else "mouse")
      ∧ ((new none w).data.pointerEventsInterface = "pointer" →
          (new none w).data =
            { pointerEventsInterface := "pointer", pointerenter := "pointerenter",
              pointerleave := "pointerleave", pointerup := "pointerup",
              pointerdown := "pointerdown", pointermove := "pointermove" })
      ∧ ((new none w).data.pointerEventsInterface = "touch" →
          (new none w).data =
            { pointerEventsInterface := "touch", pointerenter := "none",
              pointerleave := "none", pointerup := "touchend",
              pointerdown := "touchstart", pointermove := "touchmove" })
      ∧ ((new none w).data.pointerEventsInterface = "mouse" →
          (new none w).data =
            { pointerEventsInterface := "mouse", pointerenter := "mouseenter",
              pointerleave := "mouseleave", pointerup := "mouseup",
              pointerdown := "mousedown", pointermove := "mousemove" })
      ∧ ((new none w).currentPointerType = "mouse"
          ↔ (new none w).data.pointerEventsInterface = "mouse")
      ∧ ((new none w).data.pointerEventsInterface ≠ "mouse" →
          (new none w).currentPointerType = "touch") := by
  rcases w with ⟨a, b⟩
  cases a <;> cases b <;> decide

/-- The calls made by `getPointerType` on a change of pointer type. -/
theorem getPointerType_of_ne (d : PointerDetector) (pointerType : String)
    (h : pointerType ≠ d.currentPointerType) :
    getPointerType d pointerType =
      ({ d with
          windowListeners :=
            if pointerType == "mouse" then removeWindowListener d.windowListeners "pointermove"
            else addWindowListener d.windowListeners "pointermove"
          currentPointerType := pointerType },
        d.changeCallbacks.map (fun fn => { fn := fn, arg := pointerType, seen := pointerType })) := by
  unfold getPointerType
  have hb : (pointerType == d.currentPointerType) = false := by simpa using h
  simp only [hb, Bool.false_eq_true, if_false]

theorem getPointerType_of_eq (d : PointerDetector) (pointerType : String)
    (h : pointerType = d.currentPointerType) :
    getPointerType d pointerType = (d, []) := by
  unfold getPointerType
  simp [h]

theorem map_fn_calls (fns : List Nat) (a b : String) :
    (fns.map (fun fn => ({ fn := fn, arg := a, seen := b } : Call))).map Call.fn = fns := by
  induction fns with
  | nil => rfl
  | cons f fs ih => simpa using ih

/-- C19: when the pointer type of the event is the current one,
`getPointerType` leaves the detector as it is and calls no subscriber;
otherwise the current pointer type becomes that of the event, the interface
names and the subscriptions are untouched, and the subscribers are called in
subscription order, one call per subscription (hence exactly once each, a
subscription set holding no callback twice), each with the new pointer type
as argument and with the getter already answering the new pointer type. -/
theorem getPointerType_notifies (d : PointerDetector) (pointerType : String) :
    (pointerType = d.currentPointerType → getPointerType d pointerType = (d, []))
      ∧ (pointerType ≠ d.currentPointerType →
          (getPointerType d pointerType).1.currentPointerType = pointerType
            ∧ (getPointerType d pointerType).1.data = d.data
            ∧ (getPointerType d pointerType).1.changeCallbacks = d.changeCallbacks
            ∧ (getPointerType d pointerType).2.map Call.fn = d.changeCallbacks
            ∧ (∀ c, c ∈ (getPointerType d pointerType).2 →
                c.arg = pointerType ∧ c.seen = pointerType)
            ∧ (d.changeCallbacks.Nodup → ∀ fn, fn ∈ d.changeCallbacks →
                timesCalled fn (getPointerType d pointerType).2 = 1)
            ∧ (∀ fn, fn ∉ d.changeCallbacks →
                timesCalled fn (getPointerType d pointerType).2 = 0)) := by
  refine ⟨getPointerType_of_eq d pointerType, ?_⟩
  intro h
  rw [getPointerType_of_ne d pointerType h]
  refine ⟨rfl, rfl, rfl, map_fn_calls _ _ _, ?_, ?_, ?_⟩
  · intro c hc
    simp only [List.mem_map] at hc
    obtain ⟨fn, _, rfl⟩ := hc
    exact ⟨rfl, rfl⟩
  · intro hnd fn hfn
    unfold timesCalled
    dsimp only
    rw [map_fn_calls]
    exact List.count_eq_one_of_mem hnd hfn
  · intro fn hfn
    unfold timesCalled
    dsimp only
    rw [map_fn_calls]
    exact List.count_eq_zero_of_not_mem hfn

/-- C19, on a host with pointer events where the callback 0 is subscribed and
the pointer type is touch: an event made with a mouse calls the callback 0
once, with mouse. -/
theorem getPointerType_notifies_witness :
    "mouse" ≠ SwipeObserver.pointerHost.currentPointerType
      ∧ (getPointerType SwipeObserver.pointerHost "mouse").2
          = [{ fn := 0, arg := "mouse", seen := "mouse" }]
      ∧ (getPointerType SwipeObserver.pointerHost "mouse").2.map Call.fn = [0] :=
  ⟨by decide, by decide,
    ((getPointerType_notifies SwipeObserver.pointerHost "mouse").2 (by decide)).2.2.2.1.trans
      (by decide)⟩

/-! ## Subscriptions -/

theorem onChange_callbacks (d : PointerDetector) (fn : Nat) :
    (onChange d fn).changeCallbacks
      = if fn ∈ d.changeCallbacks then d.changeCallbacks else d.changeCallbacks ++ [fn] := by
  unfold onChange
  by_cases h : fn ∈ d.changeCallbacks <;> simp [h]

theorem filter_ne_of_not_mem (l : List Nat) (fn : Nat) (h : fn ∉ l) :
    l.filter (fun f => !(f == fn)) = l := by
  rw [List.filter_eq_self]
  intro a ha
  have : a ≠ fn := fun e => h (e ▸ ha)
  simp [this]

theorem offChange_callbacks (d : PointerDetector) (fn : Nat) :
    (offChange d fn).changeCallbacks = d.changeCallbacks.filter (fun f => !(f == fn)) := by
  unfold offChange
  by_cases h : fn ∈ d.changeCallbacks
  · simp [h]
  · have hc : d.changeCallbacks.contains fn = false := by simpa using h
    rw [if_neg (by rw [hc]; decide)]
    exact (filter_ne_of_not_mem _ _ h).symm

theorem onChange_fields (d : PointerDetector) (fn : Nat) :
    (onChange d fn).currentPointerType = d.currentPointerType
      ∧ (onChange d fn).data = d.data
      ∧ (onChange d fn).windowListeners = d.windowListeners := by
  unfold onChange
  split_ifs <;> exact ⟨rfl, rfl, rfl⟩

theorem offChange_fields (d : PointerDetector) (fn : Nat) :
    (offChange d fn).currentPointerType = d.currentPointerType
      ∧ (offChange d fn).data = d.data
      ∧ (offChange d fn).windowListeners = d.windowListeners := by
  unfold offChange
  split_ifs <;> exact ⟨rfl, rfl, rfl⟩

theorem getPointerType_callbacks (d : PointerDetector) (pointerType : String) :
    (getPointerType d pointerType).1.changeCallbacks = d.changeCallbacks := by
  unfold getPointerType
  split_ifs <;> rfl

theorem windowEvent_callbacks (d : PointerDetector) (name pointerType : String) :
    (windowEvent d name pointerType).1.changeCallbacks = d.changeCallbacks := by
  unfold windowEvent
  split_ifs
  · exact getPointerType_callbacks d pointerType
  · rfl

theorem applyOp_nodup (d : PointerDetector) (op : Op) (h : d.changeCallbacks.Nodup) :
    (applyOp d op).changeCallbacks.Nodup := by
  cases op with
  | onChange fn =>
    change (onChange d fn).changeCallbacks.Nodup
    rw [onChange_callbacks]
    split_ifs with hm
    · exact h
    · rw [List.nodup_append]
      refine ⟨h, List.nodup_singleton _, ?_⟩
      intro a ha hb
      rw [List.mem_singleton] at hb
      exact hm (hb ▸ ha)
  | offChange fn =>
    change (offChange d fn).changeCallbacks.Nodup
    rw [offChange_callbacks]
    exact h.filter _
  | event name pointerType =>
    change (windowEvent d name pointerType).1.changeCallbacks.Nodup
    rw [windowEvent_callbacks]
    exact h

theorem applyOps_nodup (ops : List Op) (d : PointerDetector) (h : d.changeCallbacks.Nodup) :
    (applyOps d ops).changeCallbacks.Nodup := by
  unfold applyOps
  induction ops generalizing d with
  | nil => exact h
  | cons op rest ih =>
    simp only [List.foldl_cons]
    exact ih (applyOp d op) (applyOp_nodup d op h)

theorem new_callbacks (w : Window) : (new none w).changeCallbacks = [] := by
  rfl

/-- A subscribed callback stays subscribed as long as it is not passed to
`offChange`. -/
theorem applyOps_mem (ops : List Op) (d : PointerDetector) (fn : Nat)
    (h : fn ∈ d.changeCallbacks) (hops : ∀ op, op ∈ ops → op ≠ Op.offChange fn) :
    fn ∈ (applyOps d ops).changeCallbacks := by
  unfold applyOps
  induction ops generalizing d with
  | nil => exact h
  | cons op rest ih =>
    simp only [List.foldl_cons]
    apply ih (applyOp d op)
    · cases op with
      | onChange f =>
        change fn ∈ (onChange d f).changeCallbacks
        rw [onChange_callbacks]
        split_ifs
        · exact h
        · exact List.mem_append_left _ h
      | offChange f =>
        change fn ∈ (offChange d f).changeCallbacks
        rw [offChange_callbacks, List.mem_filter]
        refine ⟨h, ?_⟩
        have hne : fn ≠ f := by
          intro e
          exact hops (Op.offChange f) (List.mem_cons_self _ _) (by rw [e])
        simp [hne]
      | event name pointerType =>
        change fn ∈ (windowEvent d name pointerType).1.changeCallbacks
        rw [windowEvent_callbacks]
        exact h
    · intro op2 h2
      exact hops op2 (List.mem_cons_of_mem _ h2)

/-- A callback that is not subscribed stays so as long as it is not passed to
`onChange`. -/
theorem applyOps_not_mem (ops : List Op) (d : PointerDetector) (fn : Nat)
    (h : fn ∉ d.changeCallbacks) (hops : ∀ op, op ∈ ops → op ≠ Op.onChange fn) :
    fn ∉ (applyOps d ops).changeCallbacks := by
  unfold applyOps
  induction ops generalizing d with
  | nil => exact h
  | cons op rest ih =>
    simp only [List.foldl_cons]
    apply ih (applyOp d op)
    · cases op with
      | onChange f =>
        change fn ∉ (onChange d f).changeCallbacks
        rw [onChange_callbacks]
        have hne : fn ≠ f := by
          intro e
          exact hops (Op.onChange f) (List.mem_cons_self _ _) (by rw [e])
        split_ifs
        · exact h
        · intro hm
          rcases List.mem_append.mp hm with h1 | h1
          · exact h h1
          · exact hne (List.mem_singleton.mp h1)
      | offChange f =>
        change fn ∉ (offChange d f).changeCallbacks
        rw [offChange_callbacks]
        intro hm
        exact h (List.mem_filter.mp hm).1
      | event name pointerType =>
        change fn ∉ (windowEvent d name pointerType).1.changeCallbacks
        rw [windowEvent_callbacks]
        exact h
    · intro op2 h2
      exact hops op2 (List.mem_cons_of_mem _ h2)

/-- The number of calls a change of pointer type makes to a callback. -/
theorem timesCalled_of_ne (d : PointerDetector) (pointerType : String) (fn : Nat)
    (h : pointerType ≠ d.currentPointerType) :
    timesCalled fn (getPointerType d pointerType).2 = d.changeCallbacks.count fn := by
  rw [getPointerType_of_ne d pointerType h]
  unfold timesCalled
  dsimp only
  rw [map_fn_calls]

/-- C20: after the construction and any sequence of `onChange`, `offChange`
and `window` events, the subscription set holds no callback twice, so a change
of pointer type calls a callback exactly once when it is subscribed and not at
all when it is not. Passing a callback to `onChange` subscribes it, and
passing it again changes nothing; it stays subscribed as long as it is not
passed to `offChange`. After `offChange(fn)` the callback is not subscribed,
the other subscriptions are kept in their order and the rest of the detector
is untouched; it stays out as long as it is not passed to `onChange` again.
And `offChange` of a callback that is not subscribed changes nothing. -/
theorem subscriptions_once_per_change :
    (∀ (w : Window) (ops : List Op), (applyOps (new none w) ops).changeCallbacks.Nodup)
    ∧ (∀ (w : Window) (ops : List Op) (pointerType : String) (fn : Nat),
        pointerType ≠ (applyOps (new none w) ops).currentPointerType →
        timesCalled fn (getPointerType (applyOps (new none w) ops) pointerType).2
          = if fn ∈ (applyOps (new none w) ops).changeCallbacks then 1 else 0)
    ∧ (∀ (d : PointerDetector) (fn : Nat),
        fn ∈ (onChange d fn).changeCallbacks ∧ onChange (onChange d fn) fn = onChange d fn)
    ∧ (∀ (d : PointerDetector) (fn : Nat) (ops : List Op),
        fn ∈ d.changeCallbacks → (∀ op, op ∈ ops → op ≠ Op.offChange fn) →
        fn ∈ (applyOps d ops).changeCallbacks)
    ∧ (∀ (d : PointerDetector) (fn : Nat),
        fn ∉ (offChange d fn).changeCallbacks
          ∧ (offChange d fn).changeCallbacks = d.changeCallbacks.filter (fun f => !(f == fn))
          ∧ (∀ f, f ≠ fn → (f ∈ (offChange d fn).changeCallbacks ↔ f ∈ d.changeCallbacks))
          ∧ (offChange d fn).currentPointerType = d.currentPointerType
          ∧ (offChange d fn).data = d.data
          ∧ (offChange d fn).windowListeners = d.windowListeners)
    ∧ (∀ (d : PointerDetector) (fn : Nat) (ops : List Op),
        fn ∉ d.changeCallbacks → (∀ op, op ∈ ops → op ≠ Op.onChange fn) →
        fn ∉ (applyOps d ops).changeCallbacks)
    ∧ (∀ (d : PointerDetector) (fn : Nat), fn ∉ d.changeCallbacks → offChange d fn = d) := by
  refine ⟨?_, ?_, ?_, ?_, ?_, ?_, ?_⟩
  · intro w ops
    exact applyOps_nodup ops (new none w) (by rw [new_callbacks]; exact List.nodup_nil)
  · intro w ops pointerType fn h
    have hnd : (applyOps (new none w) ops).changeCallbacks.Nodup :=
      applyOps_nodup ops (new none w) (by rw [new_callbacks]; exact List.nodup_nil)
    rw [timesCalled_of_ne _ _ _ h]
    split_ifs with hm
    · exact List.count_eq_one_of_mem hnd hm
    · exact List.count_eq_zero_of_not_mem hm
  · intro d fn
    have hm : fn ∈ (onChange d fn).changeCallbacks := by
      rw [onChange_callbacks]
      split_ifs with h
      · exact h
      · simp
    refine ⟨hm, ?_⟩
    have hc : (onChange d fn).changeCallbacks.contains fn = true := by simpa using hm
    show (if !((onChange d fn).changeCallbacks.contains fn) then _ else onChange d fn) = _
    rw [hc]
    rfl
  · intro d fn ops h hops
    exact applyOps_mem ops d fn h hops
  · intro d fn
    obtain ⟨f1, f2, f3⟩ := offChange_fields d fn
    refine ⟨?_, offChange_callbacks d fn, ?_, f1, f2, f3⟩
    · rw [offChange_callbacks]
      intro hm
      have := (List.mem_filter.mp hm).2
      simp at this
    · intro f hf
      rw [offChange_callbacks, List.mem_filter]
      constructor
      · exact fun h => h.1
      · intro h
        exact ⟨h, by simp [hf]⟩
  · intro d fn ops h hops
    exact applyOps_not_mem ops d fn h hops
  · intro d fn h
    have hc : d.changeCallbacks.contains fn = false := by simpa using h
    unfold offChange
    rw [if_neg (by rw [hc]; decide)]

/-- C20, after the construction on a host with pointer events, two
subscriptions of the callback 7, a subscription of the callback 3 and its
unsubscription: an event made with a mouse calls the callback 7 once and the
callback 3 not at all. -/
theorem subscriptions_once_per_change_witness :
    "mouse" ≠ (applyOps (new none { hasPointerEvent := true, hasTouchEvent := false })
          [Op.onChange 7, Op.onChange 7, Op.onChange 3, Op.offChange 3]).currentPointerType
      ∧ timesCalled 7
          (getPointerType
            (applyOps (new none { hasPointerEvent := true, hasTouchEvent := false })
              [Op.onChange 7, Op.onChange 7, Op.onChange 3, Op.offChange 3]) "mouse").2 = 1
      ∧ timesCalled 3
          (getPointerType
            (applyOps (new none { hasPointerEvent := true, hasTouchEvent := false })
              [Op.onChange 7, Op.onChange 7, Op.onChange 3, Op.offChange 3]) "mouse").2 = 0 :=
  ⟨by decide,
    (subscriptions_once_per_change.2.1 { hasPointerEvent := true, hasTouchEvent := false }
      [Op.onChange 7, Op.onChange 7, Op.onChange 3, Op.offChange 3] "mouse" 7
      (by decide)).trans (by decide),
    by decide⟩

/-! ## Invariants of the detector -/

theorem getPointerType_data (d : PointerDetector) (pointerType : String) :
    (getPointerType d pointerType).1.data = d.data := by
  unfold getPointerType
  split_ifs <;> rfl

theorem applyOp_data (d : PointerDetector) (op : Op) : (applyOp d op).data = d.data := by
  cases op with
  | onChange fn => exact (onChange_fields d fn).2.1
  | offChange fn => exact (offChange_fields d fn).2.1
  | event name pointerType =>
    change (windowEvent d name pointerType).1.data = d.data
    unfold windowEvent
    split_ifs
    · exact getPointerType_data d pointerType
    · rfl

theorem applyOps_data (ops : List Op) (d : PointerDetector) :
    (applyOps d ops).data = d.data := by
  unfold applyOps
  induction ops generalizing d with
  | nil => rfl
  | cons op rest ih =>
    simp only [List.foldl_cons]
    rw [ih (applyOp d op), applyOp_data]

/-- With no listener on `window`, an operation changes neither the pointer
type nor the listeners, and calls no subscriber. -/
theorem applyOp_of_no_listener (d : PointerDetector) (op : Op) (h : d.windowListeners = []) :
    (applyOp d op).windowListeners = []
      ∧ (applyOp d op).currentPointerType = d.currentPointerType
      ∧ callsOfOp d op = [] := by
  cases op with
  | onChange fn =>
    obtain ⟨h1, _, h3⟩ := onChange_fields d fn
    exact ⟨h3.trans h, h1, rfl⟩
  | offChange fn =>
    obtain ⟨h1, _, h3⟩ := offChange_fields d fn
    exact ⟨h3.trans h, h1, rfl⟩
  | event name pointerType =>
    have he : windowEvent d name pointerType = (d, []) := by
      unfold windowEvent
      rw [h]
      simp
    change (windowEvent d name pointerType).1.windowListeners = []
      ∧ (windowEvent d name pointerType).1.currentPointerType = d.currentPointerType
      ∧ (windowEvent d name pointerType).2 = []
    rw [he]
    exact ⟨h, rfl, rfl⟩

theorem applyOps_of_no_listener (ops : List Op) (d : PointerDetector)
    (h : d.windowListeners = []) :
    (applyOps d ops).currentPointerType = d.currentPointerType ∧ callsOf d ops = [] := by
  induction ops generalizing d with
  | nil => exact ⟨rfl, rfl⟩
  | cons op rest ih =>
    obtain ⟨h1, h2, h3⟩ := applyOp_of_no_listener d op h
    obtain ⟨i1, i2⟩ := ih (applyOp d op) h1
    constructor
    · change (applyOps (applyOp d op) rest).currentPointerType = _
      rw [i1, h2]
    · change callsOfOp d op ++ callsOf (applyOp d op) rest = []
      rw [h3, i2]
      rfl

/-- C21: when the interface found by the constructor is touch or mouse, the
pointer type after any sequence of `window` events, `onChange` and `offChange`
is the initial one (touch, respectively mouse) and no subscriber is called
during the sequence; and under every interface the interface name and the
derived names after any such sequence are those set by the constructor. -/
theorem pointerType_constant_without_pointer_events :
    (∀ (w : Window) (ops : List Op),
      ((new none w).data.pointerEventsInterface = "touch"
          ∨ (new none w).data.pointerEventsInterface = "mouse") →
        (applyOps (new none w) ops).currentPointerType = (new none w).currentPointerType
          ∧ (applyOps (new none w) ops).currentPointerType
              = (new none w).data.pointerEventsInterface
          ∧ callsOf (new none w) ops = [])
    ∧ (∀ (w : Window) (ops : List Op), (applyOps (new none w) ops).data = (new none w).data) := by
  refine ⟨?_, fun w ops => applyOps_data ops (new none w)⟩
  intro w ops hi
  have hl : (new none w).windowListeners = [] := by
    rcases w with ⟨a, b⟩
    cases a <;> cases b <;> first | rfl | (exfalso; revert hi; decide)
  have ht : (new none w).currentPointerType = (new none w).data.pointerEventsInterface := by
    rcases w with ⟨a, b⟩
    cases a <;> cases b <;> first | rfl | (exfalso; revert hi; decide)
  obtain ⟨h1, h2⟩ := applyOps_of_no_listener ops (new none w) hl
  exact ⟨h1, h1.trans ht, h2⟩

/-- C21, on a host with touch events only, after a subscription and two
`window` events made with a mouse: the pointer type is still touch and the
subscriber was not called. -/
theorem pointerType_constant_without_pointer_events_witness :
    (new none { hasPointerEvent := false, hasTouchEvent := true }).data.pointerEventsInterface
        = "touch"
      ∧ (applyOps (new none { hasPointerEvent := false, hasTouchEvent := true })
            [Op.onChange 1, Op.event "pointermove" "mouse",
              Op.event "pointerdown" "mouse"]).currentPointerType = "touch"
      ∧ callsOf (new none { hasPointerEvent := false, hasTouchEvent := true })
            [Op.onChange 1, Op.event "pointermove" "mouse", Op.event "pointerdown" "mouse"]
          = [] :=
  ⟨by decide,
    (pointerType_constant_without_pointer_events.1
      { hasPointerEvent := false, hasTouchEvent := true }
      [Op.onChange 1, Op.event "pointermove" "mouse", Op.event "pointerdown" "mouse"]
      (Or.inl (by decide))).2.1.trans (by decide),
    (pointerType_constant_without_pointer_events.1
      { hasPointerEvent := false, hasTouchEvent := true }
      [Op.onChange 1, Op.event "pointermove" "mouse", Op.event "pointerdown" "mouse"]
      (Or.inl (by decide))).2.2⟩

theorem mem_addWindowListener (ls : List String) (name x : String) :
    x ∈ addWindowListener ls name ↔ x ∈ ls ∨ x = name := by
  unfold addWindowListener
  split_ifs with h
  · constructor
    · intro hx; exact Or.inl hx
    · rintro (hx | rfl)
      · exact hx
      · exact h
  · simp

theorem mem_removeWindowListener (ls : List String) (name x : String) :
    x ∈ removeWindowListener ls name ↔ x ∈ ls ∧ x ≠ name := by
  unfold removeWindowListener
  simp [List.mem_filter]

/-- One operation keeps the relation between the listeners on `window` and the
pointer type. -/
theorem applyOp_listeners (d : PointerDetector) (op : Op)
    (h1 : "pointermove" ∈ d.windowListeners ↔ d.currentPointerType ≠ "mouse")
    (h2 : "pointerdown" ∈ d.windowListeners) :
    ("pointermove" ∈ (applyOp d op).windowListeners
        ↔ (applyOp d op).currentPointerType ≠ "mouse")
      ∧ "pointerdown" ∈ (applyOp d op).windowListeners := by
  cases op with
  | onChange fn =>
    obtain ⟨f1, _, f3⟩ := onChange_fields d fn
    change ("pointermove" ∈ (onChange d fn).windowListeners
        ↔ (onChange d fn).currentPointerType ≠ "mouse")
      ∧ "pointerdown" ∈ (onChange d fn).windowListeners
    rw [f1, f3]
    exact ⟨h1, h2⟩
  | offChange fn =>
    obtain ⟨f1, _, f3⟩ := offChange_fields d fn
    change ("pointermove" ∈ (offChange d fn).windowListeners
        ↔ (offChange d fn).currentPointerType ≠ "mouse")
      ∧ "pointerdown" ∈ (offChange d fn).windowListeners
    rw [f1, f3]
    exact ⟨h1, h2⟩
  | event name pointerType =>
    change ("pointermove" ∈ (windowEvent d name pointerType).1.windowListeners
        ↔ (windowEvent d name pointerType).1.currentPointerType ≠ "mouse")
      ∧ "pointerdown" ∈ (windowEvent d name pointerType).1.windowListeners
    unfold windowEvent
    split_ifs with hn
    · by_cases he : pointerType = d.currentPointerType
      · rw [getPointerType_of_eq d pointerType he]
        exact ⟨h1, h2⟩
      · rw [getPointerType_of_ne d pointerType he]
        dsimp only
        by_cases hm : pointerType = "mouse"
        · subst hm
          simp only [beq_self_eq_true, if_true, mem_removeWindowListener]
          refine ⟨?_, h2, by decide⟩
          constructor
          · intro hx; exact absurd rfl hx.2
          · intro hx; exact absurd rfl hx
        · have hb : (pointerType == "mouse") = false := by simpa using hm
          simp only [hb, Bool.false_eq_true, if_false, mem_addWindowListener]
          refine ⟨?_, Or.inl h2⟩
          constructor
          · intro _; exact hm
          · intro _; exact Or.inr trivial
    · exact ⟨h1, h2⟩

/-- C23: under the pointer interface, after the construction and any sequence
of `window` events (of any name and pointer type) and of `onChange` and
`offChange` calls, `getPointerType` is installed on `window` for pointermove
if and only if the current pointer type is not mouse, and is installed for
pointerdown. -/
theorem pointermove_listener_iff_not_mouse (w : Window) (ops : List Op)
    (hp : (new none w).data.pointerEventsInterface = "pointer") :
    ("pointermove" ∈ (applyOps (new none w) ops).windowListeners
        ↔ (applyOps (new none w) ops).currentPointerType ≠ "mouse")
      ∧ "pointerdown" ∈ (applyOps (new none w) ops).windowListeners := by
  have h0 : ("pointermove" ∈ (new none w).windowListeners
        ↔ (new none w).currentPointerType ≠ "mouse")
      ∧ "pointerdown" ∈ (new none w).windowListeners := by
    rcases w with ⟨a, b⟩
    cases a <;> cases b <;> first | decide | (exfalso; revert hp; decide)
  have step : ∀ (l : List Op) (d : PointerDetector),
      (("pointermove" ∈ d.windowListeners ↔ d.currentPointerType ≠ "mouse")
        ∧ "pointerdown" ∈ d.windowListeners) →
      (("pointermove" ∈ (applyOps d l).windowListeners
          ↔ (applyOps d l).currentPointerType ≠ "mouse")
        ∧ "pointerdown" ∈ (applyOps d l).windowListeners) := by
    intro l
    induction l with
    | nil => intro d hd; exact hd
    | cons op rest ih =>
      intro d hd
      exact ih (applyOp d op) (applyOp_listeners d op hd.1 hd.2)
  exact step ops (new none w) h0

/-- C23, on a host with pointer events: after a press made with a mouse the
listener for pointermove is gone; after a later press made with a pen it is
back; the listener for pointerdown is there in both states. -/
theorem pointermove_listener_iff_not_mouse_witness :
    (new none { hasPointerEvent := true, hasTouchEvent := true }).data.pointerEventsInterface
        = "pointer"
      ∧ (applyOps (new none { hasPointerEvent := true, hasTouchEvent := true })
            [Op.event "pointerdown" "mouse"]).windowListeners = ["pointerdown"]
      ∧ (applyOps (new none { hasPointerEvent := true, hasTouchEvent := true })
            [Op.event "pointerdown" "mouse", Op.event "pointerdown" "pen"]).windowListeners
          = ["pointerdown", "pointermove"]
      ∧ "pointerdown" ∈ (applyOps (new none { hasPointerEvent := true, hasTouchEvent := true })
            [Op.event "pointerdown" "mouse", Op.event "pointerdown" "pen"]).windowListeners :=
  ⟨by decide, by decide, by decide,
    (pointermove_listener_iff_not_mouse { hasPointerEvent := true, hasTouchEvent := true }
      [Op.event "pointerdown" "mouse", Op.event "pointerdown" "pen"] (by decide)).2⟩

end PointerDetector
